import Mathlib

set_option maxRecDepth 4000

/-!
Verification of the FunctionGemma training-data generator
(scripts/generate_functiongemma_training.py).

The script is a one-shot batch pipeline: a static tool catalog, a family of
category generators producing chat examples, a typo augmenter, a shuffle,
serialization and a validation pass.  We embed it shallowly:

* JSON-ish argument values become `JVal`; each record becomes an `Example`
  (developer / user / assistant message plus a `tools` list), mirroring the
  dictionaries built by `make_example`, `make_no_tool` and `make_multi_tool`.
* Python's global `random` module is modelled by an `Oracle` of unconstrained
  functions, one per sampling site (keyed by the loop data at that site); all
  theorems quantify over every oracle, hence over every random-source state.
* `str.format` patterns become Lean functions `String → String`.
* Fields of the tool catalog that no generator reads (per-property enum and
  description metadata, and the constant `"type": "function"` wrapper around
  each tool call) are kept only as far as the data the program inspects.
-/

/-- A JSON-ish value as used in tool-call argument dictionaries. -/
inductive JVal where
  | str (s : String)
  | int (n : Int)
  | bool (b : Bool)
deriving DecidableEq

/-- One tool call: the `"function"` object of a `tool_calls` entry. -/
structure ToolCall where
  name : String
  arguments : List (String × JVal)
deriving DecidableEq

/-- The assistant message of a record: its content string and the optional
`tool_calls` field (absent ↔ `none`). -/
structure AssistantMsg where
  content : String
  tool_calls : Option (List ToolCall)
deriving DecidableEq

/-- One tool specification of the `TOOLS` catalog: name, description, the
parameter-schema property names with their types, and the `required` list. -/
structure ToolSpec where
  name : String
  description : String
  props : List (String × String)
  required : List String
deriving DecidableEq

/-- One training record: the three messages (developer, user, assistant) and
the `tools` list exposed for this turn. -/
structure Example where
  developer : String
  user : String
  assistant : AssistantMsg
  tools : List ToolSpec
deriving DecidableEq

def developer_msg : String :=
  "You are a model that can do function calling with the following functions"

/-- `make_example`: single tool call with a `<think>…</think>` reasoning trace. -/
def make_example (user_msg tool_name : String) (args : List (String × JVal))
    (tools : List ToolSpec) (thinking : String) : Example :=
  { developer := developer_msg
    user := user_msg
    assistant := { content := "<think>" ++ thinking ++ "</think>"
                   tool_calls := some [{ name := tool_name, arguments := args }] }
    tools := tools }

/-- `make_no_tool`: plain-text assistant answer, no `tool_calls` field. -/
def make_no_tool (user_msg response : String) (tools : List ToolSpec) : Example :=
  { developer := developer_msg
    user := user_msg
    assistant := { content := response, tool_calls := none }
    tools := tools }

/-- `make_multi_tool`: ordered sequence of tool calls with one reasoning trace. -/
def make_multi_tool (user_msg : String) (calls : List (String × List (String × JVal)))
    (tools : List ToolSpec) (thinking : String) : Example :=
  { developer := developer_msg
    user := user_msg
    assistant := { content := "<think>" ++ thinking ++ "</think>"
                   tool_calls := some (calls.map (fun c => { name := c.1, arguments := c.2 })) }
    tools := tools }

/-- Python `str.lower` at the character level (the script's data is ASCII). -/
def pyLower (s : String) : String := ⟨s.data.map Char.toLower⟩

/-- Python `str.strip()`: drop whitespace from both ends. -/
def pyStrip (s : String) : String :=
  ⟨((s.data.dropWhile Char.isWhitespace).reverse.dropWhile Char.isWhitespace).reverse⟩

/-- Python `str.split()` with no argument: split on whitespace runs, dropping
empty segments. -/
def pyWords (s : String) : List String :=
  ((List.splitOnP (fun c => c.isWhitespace) s.data).filter (· ≠ [])).map (fun l => ⟨l⟩)

/-- Python `" ".join`. -/
def pyJoinSpace (l : List String) : String :=
  ⟨List.intercalate [' '] (l.map String.data)⟩

/-- Python `str.title` (used for `event.title()` in the calendar generator). -/
def pyTitleAux : Bool → List Char → List Char
  | _, [] => []
  | prevAlpha, c :: cs =>
    (if c.isAlpha then (if prevAlpha then c.toLower else c.toUpper) else c) ::
      pyTitleAux c.isAlpha cs

def pyTitle (s : String) : String := ⟨pyTitleAux false s.data⟩

/-- The fixed prefix vocabulary of `vary_message`. -/
def prefixes : List String :=
  ["", "hey ", "hi ", "luna ", "hey luna ", "yo ", "um ", "ok ", "please "]

/-- The fixed suffix vocabulary of `vary_message`. -/
def suffixes : List String :=
  ["", " please", " pls", " plz", " thanks", " thx", " ty"]

/-- `vary_message`.  `ps` models the draw `random.sample(prefixes, 3)`; since the
suffix sample `random.sample(suffixes, 2)` is re-drawn in the inner loop header
for every prefix, it is modelled by a function `ss` of the current prefix.
Mirrors: start from `[msg]`, append `strip`ped variants that differ from `msg`
and are not yet present (the membership test is on the unstripped string, the
append is of the stripped one, exactly as in the source), return the first 5. -/
def vary_message (msg : String) (ps : List String) (ss : String → List String) :
    List String :=
  (ps.foldl (fun acc p => (ss p).foldl (fun acc2 s =>
      let v := p ++ pyLower msg ++ s
      if v ≠ msg ∧ v ∉ acc2 then acc2 ++ [pyStrip v] else acc2) acc) [msg]).take 5

theorem foldl_extend {α β : Type} (g : List α → β → List α)
    (hg : ∀ a b, ∃ u, g a b = a ++ u) :
    ∀ (l : List β) (acc : List α), ∃ u, l.foldl g acc = acc ++ u := by
  intro l
  induction l with
  | nil => exact fun acc => ⟨[], (List.append_nil acc).symm⟩
  | cons b l ih =>
    intro acc
    obtain ⟨u1, h1⟩ := hg acc b
    obtain ⟨u2, h2⟩ := ih (g acc b)
    exact ⟨u1 ++ u2, by rw [List.foldl_cons, h2, h1, List.append_assoc]⟩

theorem vary_message_eq_cons (msg : String) (ps : List String) (ss : String → List String) :
    ∃ t, vary_message msg ps ss = msg :: t := by
  have hinner : ∀ p (acc : List String), ∃ u,
      (ss p).foldl (fun acc2 s =>
        let v := p ++ pyLower msg ++ s
        if v ≠ msg ∧ v ∉ acc2 then acc2 ++ [pyStrip v] else acc2) acc = acc ++ u := by
    intro p acc
    refine foldl_extend _ (fun a b => ?_) (ss p) acc
    by_cases h : p ++ pyLower msg ++ b ≠ msg ∧ p ++ pyLower msg ++ b ∉ a
    · exact ⟨[pyStrip (p ++ pyLower msg ++ b)], by simp [h]⟩
    · exact ⟨[], by simp [h]⟩
  obtain ⟨u, hu⟩ := foldl_extend _ (fun a b => hinner b a) ps [msg]
  exact ⟨u.take 4, by rw [vary_message, hu, List.cons_append, List.nil_append,
    List.take_succ_cons]⟩

theorem vary_message_length_le (msg : String) (ps : List String) (ss : String → List String) :
    (vary_message msg ps ss).length ≤ 5 := by
  rw [vary_message]
  exact List.length_take_le 5 _

theorem vary_message_head (msg : String) (ps : List String) (ss : String → List String) :
    (vary_message msg ps ss).head? = some msg := by
  obtain ⟨t, ht⟩ := vary_message_eq_cons msg ps ss
  rw [ht]
  rfl

/-! The `TOOLS` catalog.  Each entry keeps the tool name, description, the
parameter property names with their declared types, and the `required` list. -/

def spec_research : ToolSpec :=
  ⟨"research",
   "Conduct in-depth research using Claude Opus 4.5. Can search the web, analyze code, process documents, and perform data analysis.",
   [("query", "string"), ("depth", "string"), ("save_to_file", "string")], ["query"]⟩

def spec_search_knowledge : ToolSpec :=
  ⟨"search_knowledge", "Semantic search through user\x27s knowledge base using embeddings",
   [("query", "string"), ("limit", "integer")], ["query"]⟩

def spec_create_knowledge : ToolSpec :=
  ⟨"create_knowledge", "Save knowledge to the user\x27s knowledge base",
   [("title", "string"), ("content", "string"), ("category", "string"), ("tags", "array")],
   ["title", "content"]⟩

def spec_get_user_facts : ToolSpec :=
  ⟨"get_user_facts", "Retrieve stored facts about the user", [], []⟩

def spec_create_task : ToolSpec :=
  ⟨"create_task", "Create a new task or todo item",
   [("title", "string"), ("description", "string"), ("due_at", "string"), ("priority", "string")],
   ["title"]⟩

def spec_get_tasks : ToolSpec :=
  ⟨"get_tasks", "Get user\x27s tasks with optional filtering",
   [("status", "string"), ("priority", "string"), ("upcoming", "boolean")], []⟩

def spec_complete_task : ToolSpec :=
  ⟨"complete_task", "Mark a task as completed", [("task_id", "string")], ["task_id"]⟩

def spec_delete_task : ToolSpec :=
  ⟨"delete_task", "Delete a task", [("task_id", "string")], ["task_id"]⟩

def spec_get_calendar_events : ToolSpec :=
  ⟨"get_calendar_events", "Get upcoming calendar events",
   [("days_ahead", "integer"), ("limit", "integer")], []⟩

def spec_create_calendar_event : ToolSpec :=
  ⟨"create_calendar_event", "Create a calendar event",
   [("title", "string"), ("start_at", "string"), ("end_at", "string"), ("location", "string")],
   ["title", "start_at", "end_at"]⟩

def spec_get_emails : ToolSpec :=
  ⟨"get_emails", "Get user\x27s emails",
   [("unread_only", "boolean"), ("limit", "integer")], []⟩

def spec_search_emails : ToolSpec :=
  ⟨"search_emails", "Search emails", [("query", "string"), ("limit", "integer")], ["query"]⟩

def spec_send_email : ToolSpec :=
  ⟨"send_email", "Send an email",
   [("to", "string"), ("subject", "string"), ("body", "string")], ["to", "subject", "body"]⟩

def spec_play_music : ToolSpec :=
  ⟨"play_music", "Play music on Spotify",
   [("query", "string"), ("type", "string"), ("shuffle", "boolean")], ["query"]⟩

def spec_pause_music : ToolSpec :=
  ⟨"pause_music", "Pause Spotify playback", [], []⟩

def spec_skip_track : ToolSpec :=
  ⟨"skip_track", "Skip to next track", [], []⟩

def spec_previous_track : ToolSpec :=
  ⟨"previous_track", "Go to previous track", [], []⟩

def spec_get_currently_playing : ToolSpec :=
  ⟨"get_currently_playing", "Get currently playing track info", [], []⟩

def spec_search_music : ToolSpec :=
  ⟨"search_music", "Search Spotify", [("query", "string"), ("limit", "integer")], ["query"]⟩

def spec_set_volume : ToolSpec :=
  ⟨"set_volume", "Set Spotify volume", [("volume_percent", "integer")], ["volume_percent"]⟩

def spec_navigate : ToolSpec :=
  ⟨"navigate", "Navigate browser to URL", [("url", "string")], ["url"]⟩

def spec_screenshot : ToolSpec :=
  ⟨"screenshot", "Take browser screenshot", [("full_page", "boolean")], []⟩

def spec_click : ToolSpec :=
  ⟨"click", "Click element by selector", [("selector", "string")], ["selector"]⟩

def spec_fill : ToolSpec :=
  ⟨"fill", "Fill form input", [("selector", "string"), ("text", "string")], ["selector", "text"]⟩

def spec_get_page_content : ToolSpec :=
  ⟨"get_page_content", "Get page content", [("url", "string")], ["url"]⟩

def spec_execute_python : ToolSpec :=
  ⟨"execute_python", "Execute Python code", [("code", "string")], ["code"]⟩

def spec_execute_javascript : ToolSpec :=
  ⟨"execute_javascript", "Execute JavaScript code", [("code", "string")], ["code"]⟩

def spec_create_reminder : ToolSpec :=
  ⟨"create_reminder", "Create a reminder",
   [("message", "string"), ("delay_minutes", "integer")], ["message", "delay_minutes"]⟩

def spec_list_reminders : ToolSpec :=
  ⟨"list_reminders", "Get pending reminders", [], []⟩

def spec_write_file : ToolSpec :=
  ⟨"write_file", "Write file to workspace",
   [("filename", "string"), ("content", "string")], ["filename", "content"]⟩

def spec_read_file : ToolSpec :=
  ⟨"read_file", "Read file from workspace", [("filename", "string")], ["filename"]⟩

def spec_list_files : ToolSpec :=
  ⟨"list_files", "List workspace files", [], []⟩

def spec_delete_file : ToolSpec :=
  ⟨"delete_file", "Delete workspace file", [("filename", "string")], ["filename"]⟩

def spec_generate_image : ToolSpec :=
  ⟨"generate_image", "Generate image using AI", [("prompt", "string")], ["prompt"]⟩

def spec_search_youtube : ToolSpec :=
  ⟨"search_youtube", "Search YouTube videos",
   [("query", "string"), ("limit", "integer")], ["query"]⟩

def spec_system_cpu_usage : ToolSpec :=
  ⟨"system_cpu_usage", "Get CPU usage", [], []⟩

def spec_system_memory : ToolSpec :=
  ⟨"system_memory", "Get memory usage", [], []⟩

def spec_system_disk : ToolSpec :=
  ⟨"system_disk", "Get disk usage", [], []⟩

def spec_system_uptime : ToolSpec :=
  ⟨"system_uptime", "Get system uptime", [], []⟩

def spec_system_load : ToolSpec :=
  ⟨"system_load", "Get system load", [], []⟩

def spec_docker_containers : ToolSpec :=
  ⟨"docker_containers", "Get Docker containers", [("only_running", "boolean")], []⟩

def spec_docker_logs : ToolSpec :=
  ⟨"docker_logs", "Get Docker container logs",
   [("container_id", "string"), ("lines", "integer")], ["container_id"]⟩

def spec_docker_stats : ToolSpec :=
  ⟨"docker_stats", "Get Docker container stats", [("container_id", "string")], ["container_id"]⟩

def spec_analyze_mood : ToolSpec :=
  ⟨"analyze_mood", "Analyze mood in text", [("message", "string")], ["message"]⟩

def spec_get_mood_history : ToolSpec :=
  ⟨"get_mood_history", "Get mood history", [], []⟩

def spec_search_documents : ToolSpec :=
  ⟨"search_documents", "Search uploaded documents",
   [("query", "string"), ("limit", "integer")], ["query"]⟩

def spec_get_documents : ToolSpec :=
  ⟨"get_documents", "List uploaded documents", [], []⟩

def spec_generate_background : ToolSpec :=
  ⟨"generate_background", "Generate desktop background",
   [("prompt", "string"), ("style", "string")], ["prompt"]⟩

def spec_get_backgrounds : ToolSpec :=
  ⟨"get_backgrounds", "Get saved backgrounds", [], []⟩

def spec_create_project : ToolSpec :=
  ⟨"create_project", "Create a project",
   [("name", "string"), ("type", "string"), ("description", "string")], ["name", "type"]⟩

def spec_get_projects : ToolSpec :=
  ⟨"get_projects", "Get user\x27s projects", [], []⟩

def spec_analyze_image : ToolSpec :=
  ⟨"analyze_image", "Analyze an image",
   [("image_url", "string"), ("prompt", "string")], ["image_url"]⟩

/-- The `TOOLS` dictionary, in source order (keys equal the spec names). -/
def TOOLS : List (String × ToolSpec) :=
  [("research", spec_research), ("search_knowledge", spec_search_knowledge),
   ("create_knowledge", spec_create_knowledge), ("get_user_facts", spec_get_user_facts),
   ("create_task", spec_create_task), ("get_tasks", spec_get_tasks),
   ("complete_task", spec_complete_task), ("delete_task", spec_delete_task),
   ("get_calendar_events", spec_get_calendar_events),
   ("create_calendar_event", spec_create_calendar_event),
   ("get_emails", spec_get_emails), ("search_emails", spec_search_emails),
   ("send_email", spec_send_email), ("play_music", spec_play_music),
   ("pause_music", spec_pause_music), ("skip_track", spec_skip_track),
   ("previous_track", spec_previous_track), ("get_currently_playing", spec_get_currently_playing),
   ("search_music", spec_search_music), ("set_volume", spec_set_volume),
   ("navigate", spec_navigate), ("screenshot", spec_screenshot), ("click", spec_click),
   ("fill", spec_fill), ("get_page_content", spec_get_page_content),
   ("execute_python", spec_execute_python), ("execute_javascript", spec_execute_javascript),
   ("create_reminder", spec_create_reminder), ("list_reminders", spec_list_reminders),
   ("write_file", spec_write_file), ("read_file", spec_read_file),
   ("list_files", spec_list_files), ("delete_file", spec_delete_file),
   ("generate_image", spec_generate_image), ("search_youtube", spec_search_youtube),
   ("system_cpu_usage", spec_system_cpu_usage), ("system_memory", spec_system_memory),
   ("system_disk", spec_system_disk), ("system_uptime", spec_system_uptime),
   ("system_load", spec_system_load), ("docker_containers", spec_docker_containers),
   ("docker_logs", spec_docker_logs), ("docker_stats", spec_docker_stats),
   ("analyze_mood", spec_analyze_mood), ("get_mood_history", spec_get_mood_history),
   ("search_documents", spec_search_documents), ("get_documents", spec_get_documents),
   ("generate_background", spec_generate_background), ("get_backgrounds", spec_get_backgrounds),
   ("create_project", spec_create_project), ("get_projects", spec_get_projects),
   ("analyze_image", spec_analyze_image)]

/-- `list(TOOLS.values())` as used by the negative generator. -/
def all_tools : List ToolSpec := TOOLS.map Prod.snd

/-- Model of Python's global `random` module.  Every sampling site of the
script gets its own unconstrained function, keyed by the loop data in scope at
that site; every real stream of draws is one instance, and all theorems
quantify over every `Oracle`. -/
structure Oracle where
  researchPats : String → List (String → String)
  researchDepthThorough : String → Bool
  knowledgePats : String → List (String → String)
  tasksPats : String → List (String → String)
  musicPats : String → List (String → String)
  musicRand : String → ℚ
  negTools : String → List ToolSpec
  varyPs : String → List String
  varySs : String → String → List String
  typoGate : Nat → ℚ
  typoCoin : Nat → Nat → ℚ
  typoPick : Nat → Nat → Nat

/-- `vary_message(user_msg)` with the oracle supplying the two samples. -/
def varyO (o : Oracle) (msg : String) : List String :=
  vary_message msg (o.varyPs msg) (o.varySs msg)

/-! `gen_research` -/

def research_tools : List ToolSpec := [spec_research, spec_search_knowledge]

def research_topics : List String :=
  ["quantum computing", "SpaceX Starship", "climate change", "Python async", "machine learning",
   "AI regulation", "James Webb telescope", "mRNA vaccines", "Internet history", "dark matter",
   "blockchain", "React best practices", "cryptocurrency", "healthy eating", "space exploration",
   "renewable energy", "neural networks", "web3", "rust programming", "kubernetes",
   "CRISPR", "electric vehicles", "5G networks", "cybersecurity", "quantum cryptography",
   "AGI", "fusion energy", "Mars colonization", "brain computer interface", "NVIDIA AI",
   "transformers architecture", "GPT models", "diffusion models", "reinforcement learning",
   "LLM fine-tuning", "RAG systems", "vector databases", "prompt engineering", "AI safety",
   "autonomous vehicles", "drone technology", "robotics", "IoT security", "edge computing",
   "microservices", "serverless", "GraphQL", "WebAssembly", "progressive web apps"]

def research_patterns : List (String → String) :=
  [fun t => "Research " ++ t, fun t => "Look up " ++ t,
   fun t => "Research " ++ t ++ " for me", fun t => "Tell me about " ++ t,
   fun t => "What do we know about " ++ t ++ "?", fun t => "Find out about " ++ t,
   fun t => "Investigate " ++ t, fun t => "I\x27m curious about " ++ t,
   fun t => "Deep dive into " ++ t, fun t => "What\x27s the latest on " ++ t ++ "?",
   fun t => "research " ++ t, fun t => "look into " ++ t,
   fun t => "whats going on with " ++ t, fun t => "info on " ++ t]

/-- Inner body of `gen_research`: the base example plus the lexical variants
(the research generator filters out variants equal to the base message). -/
def researchSeg (o : Oracle) (user_msg : String) (args : List (String × JVal))
    (thinking : String) : List Example :=
  make_example user_msg "research" args research_tools thinking ::
    (((varyO o user_msg).take 2).filter (· ≠ user_msg)).map
      (fun var => make_example var "research" args research_tools thinking)

def gen_research (o : Oracle) : List Example :=
  research_topics.flatMap (fun topic =>
    (o.researchPats topic).flatMap (fun pattern =>
      let user_msg := pattern topic
      let args := if o.researchDepthThorough user_msg
        then [("query", JVal.str (topic ++ " latest developments")),
              ("depth", JVal.str "thorough")]
        else [("query", JVal.str (topic ++ " latest developments"))]
      researchSeg o user_msg args ("User wants research on " ++ topic ++ ". Using research tool.")))

/-! `gen_knowledge` -/

def knowledge_tools : List ToolSpec :=
  [spec_search_knowledge, spec_create_knowledge, spec_get_user_facts]

def knowledge_search_terms : List String :=
  ["Python", "Luna project", "databases", "transformers", "consciousness", "API endpoints",
   "training", "agent architecture", "memory", "embeddings", "Docker", "security",
   "async", "vector databases", "OpenAI API", "React hooks", "TypeScript", "testing",
   "deployment", "monitoring", "authentication", "caching", "performance", "debugging",
   "logging", "error handling", "git workflow", "code review", "refactoring", "design patterns"]

def knowledge_patterns : List (String → String) :=
  [fun t => "Search my notes for " ++ t, fun t => "Find " ++ t ++ " in my knowledge",
   fun t => "What did I write about " ++ t ++ "?", fun t => "Do I have notes on " ++ t ++ "?",
   fun t => "Look up " ++ t ++ " notes", fun t => "Search for " ++ t,
   fun t => "find " ++ t ++ " stuff", fun t => "search knowledge for " ++ t,
   fun t => "check my notes about " ++ t, fun t => "anything about " ++ t ++ "?",
   fun t => t ++ " notes", fun t => "look for " ++ t]

/-- Inner body of the knowledge-search loop: base example plus the first two
variants, with no guard against the variant equalling the base message. -/
def knowledgeSearchSeg (o : Oracle) (user_msg term thinking : String) : List Example :=
  make_example user_msg "search_knowledge" [("query", JVal.str term)] knowledge_tools thinking ::
    ((varyO o user_msg).take 2).map
      (fun var => make_example var "search_knowledge" [("query", JVal.str term)]
        knowledge_tools thinking)

/-- One row of the `creates` table: user-message pattern, title, the (unused)
content pattern, category. -/
structure KCreate where
  pattern : String → String
  title : String
  contentPat : String → String
  cat : String

def knowledge_creates : List KCreate :=
  [⟨fun c => "Save this: " ++ c, "Saved Note", fun c => c, "notes"⟩,
   ⟨fun c => "Remember that " ++ c, "Reminder", fun c => c, "reminders"⟩,
   ⟨fun c => "Note: " ++ c, "Note", fun c => c, "notes"⟩]

def knowledge_contents : List String :=
  ["Python list comprehensions are faster", "API key expires March 15",
   "Server IP is 192.168.1.100", "React hooks at top level",
   "TypeScript strict mode always", "Redis port 6379",
   "JWT tokens expire 15 minutes", "Use semantic versioning",
   "Always handle errors properly", "Cache frequently accessed data"]

def knowledge_fact_queries : List String :=
  ["What do you know about me?", "Show my preferences", "My profile",
   "What have you learned about me?", "my facts", "user facts"]

def gen_knowledge (o : Oracle) : List Example :=
  (knowledge_search_terms.flatMap (fun term =>
    (o.knowledgePats term).flatMap (fun pattern =>
      knowledgeSearchSeg o (pattern term) term ("User wants to search knowledge for: " ++ term))))
  ++ (knowledge_creates.flatMap (fun kc =>
      (knowledge_contents.take 5).map (fun content =>
        make_example (kc.pattern content) "create_knowledge"
          [("title", JVal.str kc.title), ("content", JVal.str content),
           ("category", JVal.str kc.cat)]
          knowledge_tools "User wants to save knowledge.")))
  ++ knowledge_fact_queries.map (fun q =>
      make_example q "get_user_facts" [] knowledge_tools "User wants their facts.")

/-! `gen_tasks` -/

def tasks_tools : List ToolSpec :=
  [spec_create_task, spec_get_tasks, spec_complete_task, spec_delete_task]

/-- One row of the `tasks` table: utterance slot, task title, optional
description, optional priority. -/
structure TaskRow where
  slot : String
  title : String
  tdesc : Option String
  priority : Option String

def tasks : List TaskRow :=
  [⟨"review the code", "Review code", none, none⟩,
   ⟨"finish the report", "Finish report", some "Complete report", some "high"⟩,
   ⟨"call mom", "Call mom", none, none⟩,
   ⟨"deploy to production", "Deploy", some "Deploy to prod", some "high"⟩,
   ⟨"buy groceries", "Buy groceries", none, some "low"⟩,
   ⟨"update documentation", "Update docs", none, some "medium"⟩,
   ⟨"fix the login bug", "Fix login bug", some "Fix auth issue", some "high"⟩,
   ⟨"send invoice", "Send invoice", none, some "medium"⟩,
   ⟨"review PRs", "Review PRs", some "Review pull requests", some "medium"⟩,
   ⟨"clean up database", "Clean DB", some "Remove old entries", some "low"⟩,
   ⟨"write unit tests", "Write tests", some "Add unit tests", some "medium"⟩,
   ⟨"backup server", "Backup server", none, some "high"⟩,
   ⟨"update dependencies", "Update deps", some "Update npm packages", some "medium"⟩,
   ⟨"schedule meeting", "Schedule meeting", none, some "low"⟩,
   ⟨"prepare presentation", "Prepare presentation", some "Create slides", some "high"⟩,
   ⟨"respond to emails", "Respond emails", none, some "medium"⟩,
   ⟨"refactor auth module", "Refactor auth", some "Improve auth code", some "medium"⟩,
   ⟨"set up monitoring", "Setup monitoring", some "Configure alerts", some "high"⟩,
   ⟨"document API", "Document API", some "Write API docs", some "medium"⟩,
   ⟨"run performance tests", "Perf tests", some "Run load tests", some "high"⟩,
   ⟨"fix broken tests", "Fix tests", some "Debug failing tests", some "high"⟩,
   ⟨"optimize queries", "Optimize queries", some "Improve DB queries", some "medium"⟩,
   ⟨"review security", "Security review", some "Check vulnerabilities", some "high"⟩,
   ⟨"update README", "Update README", none, some "low"⟩,
   ⟨"merge branches", "Merge branches", some "Merge feature to main", some "medium"⟩]

def tasks_create_patterns : List (String → String) :=
  [fun t => "Add a task to " ++ t, fun t => "Create a todo: " ++ t,
   fun t => "Remind me to " ++ t, fun t => "Task: " ++ t,
   fun t => "I need to " ++ t, fun t => "todo: " ++ t,
   fun t => "add task " ++ t, fun t => "new task: " ++ t,
   fun t => "remember to " ++ t, fun t => "add to my list: " ++ t,
   fun t => "make a task " ++ t]

/-- The argument dictionary of a `create_task` call: `title` always, then the
optional `description` and `priority` insertions. -/
def task_args (row : TaskRow) : List (String × JVal) :=
  [("title", JVal.str row.title)]
    ++ (match row.tdesc with
        | some d => [("description", JVal.str d)]
        | none => [])
    ++ (match row.priority with
        | some p => [("priority", JVal.str p)]
        | none => [])

/-- Inner body of the task-creation loop: base plus first two variants,
unguarded. -/
def tasksCreateSeg (o : Oracle) (user_msg : String) (args : List (String × JVal))
    (thinking : String) : List Example :=
  make_example user_msg "create_task" args tasks_tools thinking ::
    ((varyO o user_msg).take 2).map
      (fun var => make_example var "create_task" args tasks_tools thinking)

def tasks_get_patterns : List (String × List (String × JVal)) :=
  [("What are my tasks?", []), ("Show my todo list", []), ("What do I need to do?", []),
   ("Show pending tasks", [("status", JVal.str "pending")]),
   ("What have I completed?", [("status", JVal.str "completed")]),
   ("High priority tasks", [("priority", JVal.str "high")]),
   ("What\x27s coming up?", [("upcoming", JVal.bool true)]),
   ("list my todos", []), ("my task list", []), ("tasks please", []),
   ("pending items", [("status", JVal.str "pending")]),
   ("medium priority", [("priority", JVal.str "medium")]),
   ("low priority stuff", [("priority", JVal.str "low")])]

/-- Inner body of the task-query loop: base plus first three variants. -/
def tasksGetSeg (o : Oracle) (user_msg : String) (args : List (String × JVal)) : List Example :=
  make_example user_msg "get_tasks" args tasks_tools "User wants their tasks." ::
    ((varyO o user_msg).take 3).map
      (fun var => make_example var "get_tasks" args tasks_tools "User wants their tasks.")

def gen_tasks (o : Oracle) : List Example :=
  (tasks.flatMap (fun row =>
    (o.tasksPats row.slot).flatMap (fun pattern =>
      tasksCreateSeg o (pattern row.slot) (task_args row)
        ("User wants to create task: " ++ row.title))))
  ++ tasks_get_patterns.flatMap (fun pa => tasksGetSeg o pa.1 pa.2)

/-! `gen_calendar` -/

def calendar_tools : List ToolSpec := [spec_get_calendar_events, spec_create_calendar_event]

def calendar_get_patterns : List (String × List (String × JVal)) :=
  [("What\x27s on my calendar?", []), ("Show my schedule", []),
   ("Any meetings today?", [("days_ahead", JVal.int 1)]),
   ("What\x27s coming up this week?", [("days_ahead", JVal.int 7)]),
   ("Calendar for tomorrow", [("days_ahead", JVal.int 2)]),
   ("do i have appointments", []), ("whats my schedule", []),
   ("events this month", [("days_ahead", JVal.int 30)]),
   ("upcoming meetings", [("days_ahead", JVal.int 7)]),
   ("calendar please", []),
   ("my schedule today", [("days_ahead", JVal.int 1)]),
   ("meetings today", [("days_ahead", JVal.int 1)]),
   ("schedule this week", [("days_ahead", JVal.int 7)]),
   ("any events", []), ("check calendar", [])]

/-- Inner body of the calendar-query loop: base plus first three variants. -/
def calendarGetSeg (o : Oracle) (user_msg : String) (args : List (String × JVal)) :
    List Example :=
  make_example user_msg "get_calendar_events" args calendar_tools "User wants calendar." ::
    ((varyO o user_msg).take 3).map
      (fun var => make_example var "get_calendar_events" args calendar_tools
        "User wants calendar.")

def calendar_events : List String :=
  ["meeting with Henke", "dentist appointment", "lunch with Sarah", "team standup",
   "client call", "doctor appointment", "interview", "team lunch", "1:1 with manager",
   "project review", "demo presentation", "training session", "planning meeting"]

def calendar_event_patterns : List (String → String) :=
  [fun e => "Schedule " ++ e ++ " tomorrow at 2pm",
   fun e => "Add " ++ e ++ " on Friday at 10am",
   fun e => "Book " ++ e ++ " next Monday noon",
   fun e => "create event " ++ e ++ " at 3pm"]

def gen_calendar (o : Oracle) : List Example :=
  calendar_get_patterns.flatMap (fun pa => calendarGetSeg o pa.1 pa.2)
  ++ calendar_events.flatMap (fun event =>
      calendar_event_patterns.map (fun pattern =>
        make_example (pattern event) "create_calendar_event"
          [("title", JVal.str (pyTitle event)),
           ("start_at", JVal.str "2024-01-16T14:00:00"),
           ("end_at", JVal.str "2024-01-16T15:00:00")]
          calendar_tools ("User wants to create event: " ++ event)))

/-! `gen_email` -/

def email_tools : List ToolSpec := [spec_get_emails, spec_search_emails, spec_send_email]

def email_get_patterns : List (String × List (String × JVal)) :=
  [("Check my email", []), ("Any new emails?", [("unread_only", JVal.bool true)]),
   ("Show my inbox", []), ("Unread messages?", [("unread_only", JVal.bool true)]),
   ("show emails", []), ("check mail", [("unread_only", JVal.bool true)]),
   ("any messages?", []), ("inbox please", []), ("email inbox", []),
   ("new mail?", [("unread_only", JVal.bool true)])]

/-- Inner body of the inbox-query loop: base plus first three variants. -/
def emailGetSeg (o : Oracle) (user_msg : String) (args : List (String × JVal)) : List Example :=
  make_example user_msg "get_emails" args email_tools "User wants emails." ::
    ((varyO o user_msg).take 3).map
      (fun var => make_example var "get_emails" args email_tools "User wants emails.")

def email_searches : List String :=
  ["Henke", "project", "invoice", "meeting", "contract", "deployment",
   "Amazon", "shipping", "password reset", "order", "receipt", "support"]

def email_search_patterns : List (String → String) :=
  [fun t => "Find emails from " ++ t, fun t => "Search for " ++ t ++ " emails",
   fun t => "emails about " ++ t, fun t => "search email " ++ t]

def email_sends : List (String × String × String) :=
  [("henke@example.com", "Report Ready", "The report is ready."),
   ("sarah@company.com", "Meeting", "Reminder about meeting."),
   ("support@vendor.com", "Order", "Order status inquiry."),
   ("team@company.com", "Deadline", "Reminder: deadline Friday.")]

def gen_email (o : Oracle) : List Example :=
  email_get_patterns.flatMap (fun pa => emailGetSeg o pa.1 pa.2)
  ++ email_searches.flatMap (fun term =>
      email_search_patterns.map (fun pattern =>
        make_example (pattern term) "search_emails" [("query", JVal.str term)] email_tools
          ("Search emails: " ++ term)))
  ++ email_sends.map (fun s =>
      make_example ("Send email to " ++ s.1 ++ " about " ++ pyLower s.2.1) "send_email"
        [("to", JVal.str s.1), ("subject", JVal.str s.2.1), ("body", JVal.str s.2.2)]
        email_tools ("Send email to " ++ s.1))

/-! `gen_music` -/

def music_tools : List ToolSpec :=
  [spec_play_music, spec_pause_music, spec_skip_track, spec_previous_track,
   spec_get_currently_playing, spec_search_music, spec_set_volume]

def music_items : List (String × String) :=
  [("jazz", "playlist"), ("Bohemian Rhapsody", "track"), ("Taylor Swift", "artist"),
   ("Abbey Road", "album"), ("lo-fi beats", "playlist"), ("chill", "playlist"),
   ("Beethoven", "artist"), ("workout", "playlist"), ("classical", "playlist"),
   ("relaxing music", "playlist"), ("Daft Punk", "artist"), ("rock", "playlist"),
   ("hip hop", "playlist"), ("EDM", "playlist"), ("pop hits", "playlist"),
   ("80s music", "playlist"), ("country", "playlist"), ("indie", "playlist"),
   ("metal", "playlist"), ("R&B", "playlist"), ("Blinding Lights", "track"),
   ("Hotel California", "track"), ("Stairway to Heaven", "track"), ("Drake", "artist"),
   ("The Beatles", "artist"), ("Coldplay", "artist"), ("Pink Floyd", "artist"),
   ("Eminem", "artist"), ("Dark Side of the Moon", "album"), ("Thriller", "album"),
   ("focus music", "playlist"), ("study music", "playlist"), ("party music", "playlist"),
   ("ambient", "playlist"), ("acoustic", "playlist"), ("piano music", "playlist")]

def music_patterns : List (String → String) :=
  [fun i => "Play " ++ i, fun i => "Put on " ++ i, fun i => "play " ++ i,
   fun i => "i want to listen to " ++ i, fun i => "play me " ++ i,
   fun i => "lets hear " ++ i, fun i => "queue up " ++ i, fun i => "start " ++ i]

/-- The `play_music` argument dictionary, with the 20%-chance shuffle flag. -/
def music_args (item typ : String) (shuffle : Bool) : List (String × JVal) :=
  [("query", JVal.str item), ("type", JVal.str typ)]
    ++ (if shuffle then [("shuffle", JVal.bool true)] else [])

/-- Inner body of the play-music loop: base plus first two variants, unguarded. -/
def musicPlaySeg (o : Oracle) (user_msg : String) (args : List (String × JVal))
    (thinking : String) : List Example :=
  make_example user_msg "play_music" args music_tools thinking ::
    ((varyO o user_msg).take 2).map
      (fun var => make_example var "play_music" args music_tools thinking)

def music_pause_msgs : List String :=
  ["Pause", "Stop", "pause music", "stop playing", "hold on", "pause the music"]

def music_skip_msgs : List String :=
  ["Skip", "Next", "skip track", "next song", "skip this", "play next"]

def music_prev_msgs : List String :=
  ["Previous", "Go back", "last song", "previous track", "replay last"]

def music_current_msgs : List String :=
  ["What\x27s playing?", "What song is this?", "current track", "now playing",
   "what am i listening to"]

def music_volumes : List (Int × String) :=
  [(70, "Turn up"), (30, "Turn down"), (50, "Set to 50"), (80, "Louder"),
   (25, "Quieter"), (100, "Max"), (0, "Mute")]

def gen_music (o : Oracle) : List Example :=
  music_items.flatMap (fun it =>
    (o.musicPats it.1).flatMap (fun pattern =>
      let user_msg := pattern it.1
      musicPlaySeg o user_msg (music_args it.1 it.2 (o.musicRand user_msg > 4/5))
        ("Play music: " ++ it.1)))
  ++ music_pause_msgs.map (fun m => make_example m "pause_music" [] music_tools "Pause music.")
  ++ music_skip_msgs.map (fun m => make_example m "skip_track" [] music_tools "Skip track.")
  ++ music_prev_msgs.map (fun m =>
      make_example m "previous_track" [] music_tools "Previous track.")
  ++ music_current_msgs.map (fun m =>
      make_example m "get_currently_playing" [] music_tools "Get current track.")
  ++ music_volumes.map (fun v =>
      make_example (v.2 ++ " the volume") "set_volume" [("volume_percent", JVal.int v.1)]
        music_tools ("Set volume to " ++ toString v.1 ++ "."))

/-! `gen_code` (no randomness) -/

def code_tools : List ToolSpec := [spec_execute_python, spec_execute_javascript]

def python_examples : List (String × String) :=
  [("Calculate 2+2", "print(2 + 2)"),
   ("print hello", "print(\x27hello\x27)"),
   ("Fibonacci sequence",
    "def fib(n):\n    a, b = 0, 1\n    for _ in range(n):\n        print(a)\n        a, b = b, a + b\nfib(10)"),
   ("Factorial of 5", "import math\nprint(math.factorial(5))"),
   ("Sort a list", "nums = [3, 1, 4, 1, 5]\nprint(sorted(nums))"),
   ("100 divided by 7", "print(100 / 7)"),
   ("Random number", "import random\nprint(random.randint(1, 100))"),
   ("Current date", "from datetime import datetime\nprint(datetime.now())"),
   ("List comprehension", "print([x**2 for x in range(10)])"),
   ("String reverse", "print(\x27hello\x27[::-1])"),
   ("Is 17 prime", "print(all(17 % i != 0 for i in range(2, int(17**0.5)+1)))"),
   ("Sum of 1-5", "print(sum([1,2,3,4,5]))"),
   ("Max in list", "print(max([3, 7, 2, 9]))"),
   ("Celsius to Fahrenheit 25C", "print(25 * 9/5 + 32)")]

def python_code_patterns : List (String → String) :=
  [fun d => "Python: " ++ d, fun d => "Calculate " ++ d ++ " in Python",
   fun d => "run python " ++ d, fun d => "execute python: " ++ d,
   fun d => "python code: " ++ d]

def js_examples : List (String × String) :=
  [("console.log hi", "console.log(\x27hi\x27)"),
   ("Reverse string", "console.log(\x27hello\x27.split(\x27\x27).reverse().join(\x27\x27))"),
   ("Array sum", "console.log([1,2,3,4,5].reduce((a,b)=>a+b,0))"),
   ("Current timestamp", "console.log(Date.now())")]

def js_code_patterns : List (String → String) :=
  [fun d => "JavaScript: " ++ d, fun d => "Run JS: " ++ d,
   fun d => "execute javascript " ++ d]

def gen_code : List Example :=
  python_examples.flatMap (fun pe =>
    python_code_patterns.map (fun pattern =>
      make_example (pattern pe.1) "execute_python" [("code", JVal.str pe.2)] code_tools
        "Execute Python."))
  ++ js_examples.flatMap (fun je =>
      js_code_patterns.map (fun pattern =>
        make_example (pattern je.1) "execute_javascript" [("code", JVal.str je.2)] code_tools
          "Execute JavaScript."))

/-! `gen_reminders` (no randomness) -/

def reminders_tools : List ToolSpec := [spec_create_reminder, spec_list_reminders]

def reminders : List (String × Int) :=
  [("take a break", 30), ("check the oven", 60), ("call Henke", 15), ("Timer", 5),
   ("review PR", 120), ("team meeting", 45), ("stretch", 10), ("pick up laundry", 180),
   ("the call", 20), ("lunch", 90), ("drink water", 30), ("take medicine", 240),
   ("check email", 60), ("stand up", 25), ("save work", 30)]

def reminder_patterns : List (String → Int → String) :=
  [fun m t => "Remind me to " ++ m ++ " in " ++ toString t ++ " minutes",
   fun m t => "Set reminder " ++ toString t ++ " min: " ++ m,
   fun m t => "reminder in " ++ toString t ++ " mins " ++ m,
   fun m t => "remind me in " ++ toString t ++ " minutes to " ++ m]

def reminder_list_msgs : List String :=
  ["Show reminders", "My reminders", "list reminders", "pending reminders"]

def gen_reminders : List Example :=
  reminders.flatMap (fun r =>
    reminder_patterns.map (fun pattern =>
      make_example (pattern r.1 r.2) "create_reminder"
        [("message", JVal.str r.1), ("delay_minutes", JVal.int r.2)] reminders_tools
        ("Create reminder in " ++ toString r.2 ++ " minutes.")))
  ++ reminder_list_msgs.map (fun m =>
      make_example m "list_reminders" [] reminders_tools "List reminders.")

/-! `gen_files` (no randomness) -/

def files_tools : List ToolSpec :=
  [spec_write_file, spec_read_file, spec_list_files, spec_delete_file]

def file_writes : List (String × String) :=
  [("main.py", "print(\x27hello\x27)"), ("notes.txt", "Meeting notes"),
   ("config.json", "\x7b\"debug\": true\x7d"), ("greeting.txt", "hello world"),
   ("script.py", "import os"), ("data.csv", "name,age"),
   ("README.md", "# Project"), (".env", "DEBUG=true")]

def file_write_patterns : List (String → String → String) :=
  [fun f c => "Save to " ++ f ++ ": " ++ c, fun f c => "Create " ++ f ++ " with " ++ c,
   fun f _ => "write to " ++ f, fun f c => "save " ++ c ++ " to " ++ f]

def file_reads : List String :=
  ["main.py", "notes.txt", "config.json", "readme.md", "log.txt",
   "data.csv", "script.py", "settings.json", ".env", "package.json"]

def file_read_patterns : List (String → String) :=
  [fun f => "Read " ++ f, fun f => "Show " ++ f, fun f => "What\x27s in " ++ f ++ "?",
   fun f => "open " ++ f, fun f => "cat " ++ f]

def file_list_msgs : List String :=
  ["Show files", "List files", "my files", "workspace files", "ls"]

def file_deletes : List String := ["old.txt", "temp.log", "backup.sql"]

def gen_files : List Example :=
  file_writes.flatMap (fun w =>
    file_write_patterns.map (fun pattern =>
      make_example (pattern w.1 w.2) "write_file"
        [("filename", JVal.str w.1), ("content", JVal.str w.2)] files_tools
        ("Write file: " ++ w.1)))
  ++ file_reads.flatMap (fun f =>
      file_read_patterns.map (fun pattern =>
        make_example (pattern f) "read_file" [("filename", JVal.str f)] files_tools
          ("Read file: " ++ f)))
  ++ file_list_msgs.map (fun m => make_example m "list_files" [] files_tools "List files.")
  ++ file_deletes.map (fun f =>
      make_example ("Delete " ++ f) "delete_file" [("filename", JVal.str f)] files_tools
        ("Delete: " ++ f))

/-! `gen_images` (no randomness) -/

def images_tools : List ToolSpec := [spec_generate_image]

def image_prompts : List (String × String) :=
  [("sunset over mountains", "Beautiful sunset over mountain peaks"),
   ("cute cat", "Adorable fluffy cat with big eyes"),
   ("futuristic city", "Cyberpunk city at night with neon lights"),
   ("robot", "Friendly humanoid robot"),
   ("space scene", "Deep space with colorful nebulas"),
   ("abstract art", "Abstract modern art"),
   ("forest", "Mystical forest with sunlight"),
   ("dragon", "Majestic dragon breathing fire"),
   ("beach", "Tropical beach with palm trees"),
   ("castle", "Medieval castle at sunset"),
   ("winter scene", "Snowy mountain cabin"),
   ("aurora borealis", "Northern lights over frozen lake"),
   ("steampunk", "Steampunk airship"),
   ("garden", "Japanese zen garden"),
   ("coffee shop", "Cozy coffee shop interior"),
   ("spaceship", "Futuristic spaceship"),
   ("waterfall", "Majestic waterfall in jungle"),
   ("underwater", "Colorful coral reef"),
   ("city skyline", "City skyline at night"),
   ("landscape", "Rolling hills at golden hour")]

def image_patterns : List (String → String) :=
  [fun s => "Generate image of " ++ s, fun s => "Create picture of " ++ s,
   fun s => "Make " ++ s, fun s => "Draw " ++ s, fun s => "generate " ++ s,
   fun s => "picture of " ++ s, fun s => "image of " ++ s]

def gen_images : List Example :=
  image_prompts.flatMap (fun p =>
    image_patterns.map (fun pattern =>
      make_example (pattern p.1) "generate_image" [("prompt", JVal.str p.2)] images_tools
        "Generate image."))

/-! `gen_youtube` (no randomness) -/

def youtube_tools : List ToolSpec := [spec_search_youtube]

def youtube_searches : List String :=
  ["Python tutorials", "machine learning", "cooking recipes", "guitar lessons",
   "workout routines", "React tutorial", "funny cats", "space documentary",
   "music videos", "ted talks", "how to tie a tie", "gaming highlights",
   "photography tips", "meditation", "tech unboxing", "learn Spanish",
   "science experiments", "travel vlogs", "DIY projects", "coding tutorials"]

def youtube_patterns : List (String → String) :=
  [fun s => "Search YouTube for " ++ s, fun s => "Find " ++ s ++ " videos",
   fun s => "youtube " ++ s, fun s => "look up " ++ s ++ " on youtube",
   fun s => "youtube search " ++ s]

def gen_youtube : List Example :=
  youtube_searches.flatMap (fun s =>
    youtube_patterns.map (fun pattern =>
      make_example (pattern s) "search_youtube" [("query", JVal.str s)] youtube_tools
        ("YouTube search: " ++ s)))

/-! `gen_system` (no randomness) -/

def system_tools : List ToolSpec :=
  [spec_system_cpu_usage, spec_system_memory, spec_system_disk,
   spec_system_uptime, spec_system_load, spec_docker_containers,
   spec_docker_logs, spec_docker_stats]

def system_cpu_msgs : List String :=
  ["CPU usage", "Check CPU", "cpu stats", "processor usage", "how much cpu"]

def system_memory_msgs : List String :=
  ["Memory usage", "Check RAM", "memory stats", "how much memory", "ram usage"]

def system_disk_msgs : List String :=
  ["Disk space", "Check storage", "disk usage", "how much disk", "storage left"]

def system_uptime_msgs : List String :=
  ["Uptime", "How long running", "system uptime", "server uptime"]

def system_load_msgs : List String :=
  ["System load", "Load average", "server load", "check load"]

def system_docker_msgs : List String :=
  ["Docker containers", "Running containers", "docker ps", "container status"]

def system_containers : List String :=
  ["luna-api", "redis", "postgres", "nginx", "memorycore", "frontend"]

def system_log_patterns : List (String → String) :=
  [fun c => "Logs for " ++ c, fun c => "docker logs " ++ c, fun c => c ++ " logs"]

def gen_system : List Example :=
  system_cpu_msgs.map (fun m => make_example m "system_cpu_usage" [] system_tools "Check CPU.")
  ++ system_memory_msgs.map (fun m =>
      make_example m "system_memory" [] system_tools "Check memory.")
  ++ system_disk_msgs.map (fun m => make_example m "system_disk" [] system_tools "Check disk.")
  ++ system_uptime_msgs.map (fun m =>
      make_example m "system_uptime" [] system_tools "Check uptime.")
  ++ system_load_msgs.map (fun m => make_example m "system_load" [] system_tools "Check load.")
  ++ system_docker_msgs.map (fun m =>
      make_example m "docker_containers" [("only_running", JVal.bool true)] system_tools
        "Docker containers.")
  ++ system_containers.flatMap (fun c =>
      system_log_patterns.map (fun pattern =>
        make_example (pattern c) "docker_logs" [("container_id", JVal.str c)] system_tools
          ("Logs: " ++ c)))
  ++ (system_containers.take 3).map (fun c =>
      make_example ("Stats for " ++ c) "docker_stats" [("container_id", JVal.str c)]
        system_tools ("Stats: " ++ c))

/-! `gen_browser` (no randomness) -/

def browser_tools : List ToolSpec :=
  [spec_navigate, spec_screenshot, spec_click, spec_fill, spec_get_page_content]

def browser_sites : List (String × String) :=
  [("google.com", "https://google.com"), ("github.com", "https://github.com"),
   ("reddit", "https://reddit.com"), ("example.com", "https://example.com"),
   ("anthropic.com", "https://anthropic.com"), ("stackoverflow", "https://stackoverflow.com"),
   ("twitter", "https://twitter.com"), ("youtube", "https://youtube.com"),
   ("wikipedia", "https://wikipedia.org"), ("amazon", "https://amazon.com")]

def browser_nav_patterns : List (String → String) :=
  [fun s => "Go to " ++ s, fun s => "Open " ++ s, fun s => "Navigate to " ++ s,
   fun s => "browse " ++ s, fun s => "visit " ++ s]

def browser_screenshot_msgs : List String :=
  ["Screenshot", "Capture page", "take screenshot", "grab screenshot"]

def browser_clicks : List (String × String) :=
  [("submit button", "button[type=\x27submit\x27]"), ("login link", "a.login"),
   ("Sign In", "button:contains(\x27Sign In\x27)")]

def browser_fills : List (String × String × String) :=
  [("search box", "input[type=\x27search\x27]", "hello"),
   ("email field", "input[name=\x27email\x27]", "user@example.com")]

def gen_browser : List Example :=
  browser_sites.flatMap (fun site =>
    browser_nav_patterns.map (fun pattern =>
      make_example (pattern site.1) "navigate" [("url", JVal.str site.2)] browser_tools
        ("Navigate to " ++ site.2)))
  ++ browser_screenshot_msgs.flatMap (fun m =>
      [make_example m "screenshot" [] browser_tools "Take screenshot.",
       make_example (m ++ " full page") "screenshot" [("full_page", JVal.bool true)]
         browser_tools "Full page screenshot."])
  ++ browser_clicks.map (fun c =>
      make_example ("Click " ++ c.1) "click" [("selector", JVal.str c.2)] browser_tools
        "Click element.")
  ++ browser_fills.map (fun f =>
      make_example ("Type " ++ f.2.2 ++ " in " ++ f.1) "fill"
        [("selector", JVal.str f.2.1), ("text", JVal.str f.2.2)] browser_tools "Fill form.")

/-! `gen_documents` (no randomness) -/

def documents_tools : List ToolSpec := [spec_search_documents, spec_get_documents]

def document_searches : List String :=
  ["project specs", "contract", "API docs", "meeting notes", "invoice",
   "budget", "report", "presentation", "proposal", "design", "requirements"]

def document_search_patterns : List (String → String) :=
  [fun t => "Search docs for " ++ t, fun t => "Find " ++ t ++ " in documents",
   fun t => "search documents " ++ t, fun t => "look for " ++ t]

def document_list_msgs : List String :=
  ["Show documents", "My documents", "list uploads", "uploaded files"]

def gen_documents : List Example :=
  document_searches.flatMap (fun term =>
    document_search_patterns.map (fun pattern =>
      make_example (pattern term) "search_documents" [("query", JVal.str term)]
        documents_tools ("Search docs: " ++ term)))
  ++ document_list_msgs.map (fun m =>
      make_example m "get_documents" [] documents_tools "List documents.")

/-! `gen_mood` (no randomness) -/

def mood_tools : List ToolSpec := [spec_analyze_mood, spec_get_mood_history]

def mood_texts : List String :=
  ["I\x27m feeling stressed about work", "This is the best day ever!",
   "I\x27m so frustrated", "feeling great today", "worried about tomorrow",
   "excited about the project", "tired but happy"]

def mood_patterns : List (String → String) :=
  [fun t => "Analyze: " ++ t, fun t => "How does this sound: " ++ t,
   fun t => "Sentiment of: " ++ t, fun t => "mood of: " ++ t]

def mood_history_msgs : List String :=
  ["Mood history", "How have I been feeling?", "mood trends", "my moods"]

def gen_mood : List Example :=
  mood_texts.flatMap (fun text =>
    mood_patterns.map (fun pattern =>
      make_example (pattern text) "analyze_mood" [("message", JVal.str text)] mood_tools
        "Analyze mood."))
  ++ mood_history_msgs.map (fun m =>
      make_example m "get_mood_history" [] mood_tools "Mood history.")

/-! `gen_background` (no randomness) -/

def background_tools : List ToolSpec := [spec_generate_background, spec_get_backgrounds]

def background_rows : List (String × String × String) :=
  [("mountains", "Mountain landscape", "nature"),
   ("abstract", "Abstract flowing shapes", "abstract"),
   ("space", "Deep space nebulas", "artistic"),
   ("forest", "Mystical forest", "nature"),
   ("minimalist", "Clean minimalist design", "abstract"),
   ("ocean", "Calm ocean waves", "nature"),
   ("city skyline", "City at night", "artistic"),
   ("geometric", "Geometric patterns", "abstract"),
   ("sunset", "Beautiful sunset", "nature"),
   ("aurora", "Northern lights", "nature")]

def background_patterns : List (String → String) :=
  [fun d => "Generate background with " ++ d, fun d => "Create " ++ d ++ " wallpaper",
   fun d => "make " ++ d ++ " background", fun d => "generate " ++ d]

def background_list_msgs : List String :=
  ["Show backgrounds", "My wallpapers", "background list"]

def gen_background : List Example :=
  background_rows.flatMap (fun row =>
    background_patterns.map (fun pattern =>
      make_example (pattern row.1) "generate_background"
        [("prompt", JVal.str row.2.1), ("style", JVal.str row.2.2)] background_tools
        "Generate background."))
  ++ background_list_msgs.map (fun m =>
      make_example m "get_backgrounds" [] background_tools "List backgrounds.")

/-! `gen_projects` (no randomness) -/

def projects_tools : List ToolSpec := [spec_create_project, spec_get_projects]

def project_rows : List (String × String × String) :=
  [("Website Redesign", "web", "Redesign company website"),
   ("API Migration", "development", "Migrate to new API"),
   ("Mobile App", "mobile", "Develop mobile app"),
   ("Data Pipeline", "data", "Build ETL pipeline"),
   ("Security Audit", "security", "Security review"),
   ("Performance Optimization", "optimization", "Improve performance"),
   ("Documentation", "docs", "Update documentation"),
   ("Testing Framework", "testing", "Implement tests")]

def project_patterns : List (String → String) :=
  [fun n => "Create project " ++ n, fun n => "New project: " ++ n,
   fun n => "Start project " ++ n, fun n => "create " ++ n ++ " project"]

def project_list_msgs : List String :=
  ["Show projects", "My projects", "list projects", "project list"]

def gen_projects : List Example :=
  project_rows.flatMap (fun row =>
    project_patterns.map (fun pattern =>
      make_example (pattern row.1) "create_project"
        [("name", JVal.str row.1), ("type", JVal.str row.2.1),
         ("description", JVal.str row.2.2)] projects_tools
        ("Create project: " ++ row.1)))
  ++ project_list_msgs.map (fun m =>
      make_example m "get_projects" [] projects_tools "List projects.")

/-! `gen_negative` -/

def no_tool_pairs : List (String × String) :=
  [("What is the capital of France?", "Paris is the capital of France."),
   ("How many planets in solar system?", "There are 8 planets in our solar system."),
   ("Who wrote Romeo and Juliet?", "William Shakespeare wrote Romeo and Juliet."),
   ("What is 2 + 2?", "2 + 2 equals 4."),
   ("Tell me a joke", "Why don\x27t scientists trust atoms? They make up everything!"),
   ("Hello!", "Hello! How can I help you?"),
   ("Thanks", "You\x27re welcome!"),
   ("Good morning", "Good morning! How are you?"),
   ("What does Python mean?", "Python is a programming language named after Monty Python."),
   ("Explain machine learning", "Machine learning is AI that learns from data."),
   ("How do I cook pasta?", "Boil water, add pasta, cook 8-12 minutes, drain."),
   ("What is love?", "Love is deep affection and care for someone."),
   ("Bye", "Goodbye! Have a great day!"),
   ("What\x27s your name?", "I\x27m Luna, your AI assistant."),
   ("How are you?", "I\x27m doing well, thank you!"),
   ("What can you do?", "I can help with tasks, research, music, and more."),
   ("Hi there", "Hi! What can I help you with?"),
   ("Thank you", "You\x27re welcome!"),
   ("That\x27s interesting", "Glad you find it interesting!"),
   ("I see", "Let me know if you have questions."),
   ("Okay", "What would you like to do next?"),
   ("Sure", "Great, how can I assist you?"),
   ("Never mind", "No problem! Let me know if you need anything."),
   ("Just checking", "I\x27m here if you need me."),
   ("What\x27s 15% of 80?", "15% of 80 is 12."),
   ("Spell necessary", "necessary: N-E-C-E-S-S-A-R-Y"),
   ("Square root of 144?", "The square root of 144 is 12."),
   ("Define ephemeral", "Ephemeral means lasting a very short time."),
   ("What year is it?", "It\x27s 2024."),
   ("How old is the Earth?", "Earth is about 4.5 billion years old.")]

/-- Inner body of the negative loop: base plus first two variants, unguarded,
sharing the sampled distractor tools. -/
def negativeSeg (o : Oracle) (user_msg response : String) (tools : List ToolSpec) :
    List Example :=
  make_no_tool user_msg response tools ::
    ((varyO o user_msg).take 2).map (fun var => make_no_tool var response tools)

def gen_negative (o : Oracle) : List Example :=
  no_tool_pairs.flatMap (fun p => negativeSeg o p.1 p.2 (o.negTools p.1))

/-! `gen_multi_tool` -/

/-- One row of the `multi` table: utterance, ordered calls, tools, thinking. -/
structure MultiRow where
  user_msg : String
  calls : List (String × List (String × JVal))
  tools : List ToolSpec
  thinking : String

def multi_rows : List MultiRow :=
  [⟨"Play music and show tasks",
    [("play_music", [("query", JVal.str "music"), ("type", JVal.str "playlist")]),
     ("get_tasks", [])],
    [spec_play_music, spec_get_tasks], "Music and tasks."⟩,
   ⟨"Check email and calendar",
    [("get_emails", []), ("get_calendar_events", [])],
    [spec_get_emails, spec_get_calendar_events], "Email and calendar."⟩,
   ⟨"System status CPU memory disk",
    [("system_cpu_usage", []), ("system_memory", []), ("system_disk", [])],
    [spec_system_cpu_usage, spec_system_memory, spec_system_disk], "Full system status."⟩,
   ⟨"Tasks and calendar today",
    [("get_tasks", []), ("get_calendar_events", [("days_ahead", JVal.int 1)])],
    [spec_get_tasks, spec_get_calendar_events], "Tasks and calendar."⟩,
   ⟨"Search knowledge and documents for API",
    [("search_knowledge", [("query", JVal.str "API")]),
     ("search_documents", [("query", JVal.str "API")])],
    [spec_search_knowledge, spec_search_documents], "Search both."⟩,
   ⟨"Show files and reminders",
    [("list_files", []), ("list_reminders", [])],
    [spec_list_files, spec_list_reminders], "Files and reminders."⟩,
   ⟨"Docker logs and stats for luna-api",
    [("docker_logs", [("container_id", JVal.str "luna-api")]),
     ("docker_stats", [("container_id", JVal.str "luna-api")])],
    [spec_docker_logs, spec_docker_stats], "Docker logs and stats."⟩,
   ⟨"Show backgrounds and projects",
    [("get_backgrounds", []), ("get_projects", [])],
    [spec_get_backgrounds, spec_get_projects], "Backgrounds and projects."⟩]

/-- Inner body of the multi-tool loop: base plus first two variants, unguarded. -/
def multiSeg (o : Oracle) (r : MultiRow) : List Example :=
  make_multi_tool r.user_msg r.calls r.tools r.thinking ::
    ((varyO o r.user_msg).take 2).map
      (fun var => make_multi_tool var r.calls r.tools r.thinking)

def gen_multi_tool (o : Oracle) : List Example := multi_rows.flatMap (multiSeg o)

/-! `add_typos` -/

def typo_map : List (String × List String) :=
  [("what", ["wat", "waht"]), ("the", ["teh", "hte"]), ("check", ["chekc"]),
   ("show", ["shwo"]), ("search", ["serach"]), ("play", ["paly"]),
   ("create", ["crate"])]

/-- `w.lower() in typo_map` plus the lookup. -/
def lookupTypo (w : String) : Option (List String) :=
  (typo_map.find? (fun kv => kv.1 = pyLower w)).map Prod.snd

/-- One word of the perturbation loop: replaced by a drawn typo when the word
is in the lexicon and the per-word coin (probability 0.5) fires. -/
def typoWord (o : Oracle) (i j : Nat) (w : String) : String :=
  match lookupTypo w with
  | some l => if o.typoCoin i j < 1/2 then l.getD (o.typoPick i j % l.length) w else w
  | none => w

/-- The perturbed user message: `" ".join` of the per-word results of
`split()`. -/
def perturbMsg (o : Oracle) (i : Nat) (msg : String) : String :=
  pyJoinSpace ((pyWords msg).enum.map (fun jw => typoWord o i jw.1 jw.2))

/-- The (zero- or one-element) list of augmented copies for one example: the
rate gate, then the copy rebuilt with the same developer and assistant
messages and tools, discarded when the perturbed text equals the original. -/
def typoCopies (o : Oracle) (rate : ℚ) (i : Nat) (ex : Example) : List Example :=
  if o.typoGate i < rate then
    let new_msg := perturbMsg o i ex.user
    if new_msg ≠ ex.user then [{ ex with user := new_msg }] else []
  else []

/-- The loop of `add_typos`: append each example, then its accepted copy. -/
def addTyposGo (o : Oracle) (rate : ℚ) : Nat → List Example → List Example
  | _, [] => []
  | i, ex :: rest => ex :: (typoCopies o rate i ex ++ addTyposGo o rate (i + 1) rest)

/-- The default value of the `rate` parameter of `add_typos`. -/
def add_typos_default_rate : ℚ := 1/10

def add_typos (o : Oracle) (examples : List Example) (rate : ℚ) : List Example :=
  addTyposGo o rate 0 examples

/-- `add_typos(examples)` called without an explicit rate. -/
def add_typos_default (o : Oracle) (examples : List Example) : List Example :=
  add_typos o examples add_typos_default_rate

/-! `main`: the assembled corpus before the seeded shuffle. -/

/-- `all_examples` after the generator loop of `main`, in registration order. -/
def all_examples (o : Oracle) : List Example :=
  List.flatten
    [gen_research o, gen_knowledge o, gen_tasks o, gen_calendar o, gen_email o,
     gen_music o, gen_code, gen_reminders, gen_files, gen_images, gen_youtube,
     gen_system, gen_browser, gen_documents, gen_mood, gen_background,
     gen_projects, gen_negative o, gen_multi_tool o]

/-- `all_examples` after `add_typos(all_examples, rate=0.15)`; `main` then
shuffles this list (modelled as an arbitrary permutation) and serializes it. -/
def corpusBeforeShuffle (o : Oracle) : List Example :=
  add_typos o (all_examples o) (15/100)

/-! The validation stage of `main`: it re-reads the written file and parses
each line (`json.loads`), reporting `enumerate(f, 1)`'s 1-based index of the
first line that fails and returning before the statistics code; the file is
not removed.  File I/O is modelled by the list of written lines and the JSON
parser by an abstract `parses` predicate. -/

def validateGo (parses : String → Bool) : Nat → List String → Option Nat
  | _, [] => none
  | i, l :: ls => if parses l then validateGo parses (i + 1) ls else some i

/-- The 1-based index of the first line of the written file that fails to
parse, if any. -/
def validateLines (parses : String → Bool) (lines : List String) : Option Nat :=
  validateGo parses 1 lines

/-- What remains of the run after the validation loop: the file contents on
disk, the reported error line, and whether the statistics stage ran. -/
structure PipelineOutcome where
  fileLines : List String
  reportedErrorLine : Option Nat
  statsComputed : Bool

/-- The tail of `main` from validation on: on the first parse failure the
error line is reported and `main` returns (no statistics); otherwise the
statistics stage runs.  The written file is left on disk in both cases. -/
def runValidationStage (parses : String → Bool) (lines : List String) : PipelineOutcome :=
  match validateLines parses lines with
  | some i => ⟨lines, some i, false⟩
  | none => ⟨lines, none, true⟩

/-! Well-formedness predicates for the corpus invariants. -/

/-- A call resolves in a tools list: its name matches a spec there and every
required parameter of that spec is among the argument keys. -/
def callResolved (tools : List ToolSpec) (c : ToolCall) : Prop :=
  ∃ s ∈ tools, s.name = c.name ∧ ∀ r ∈ s.required, r ∈ c.arguments.map Prod.fst

/-- Every tool call of the assistant message resolves in the example's tools. -/
def toolCallsWellFormed (ex : Example) : Prop :=
  ∀ cs, ex.assistant.tool_calls = some cs → ∀ c ∈ cs, callResolved ex.tools c

/-- The content is wrapped in the reasoning-trace marker. -/
def wrappedInThink (s : String) : Prop := ∃ t, s = "<think>" ++ t ++ "</think>"

/-- The serialization invariant: `tool_calls` present iff the content is
wrapped in `<think>…</think>`. -/
def thinkIffCalls (ex : Example) : Prop :=
  ex.assistant.tool_calls ≠ none ↔ wrappedInThink ex.assistant.content

def goodExample (ex : Example) : Prop := toolCallsWellFormed ex ∧ thinkIffCalls ex

/-- Executable check that a call with this name and these arguments resolves
in the tools list. -/
def callOkB (tools : List ToolSpec) (tool_name : String) (args : List (String × JVal)) :
    Bool :=
  tools.any (fun s => s.name == tool_name &&
    s.required.all (fun r => args.any (fun kv => kv.1 == r)))

theorem callResolved_of_callOkB {tools : List ToolSpec} {n : String}
    {args : List (String × JVal)} (h : callOkB tools n args = true) :
    callResolved tools ⟨n, args⟩ := by
  simp only [callOkB, List.any_eq_true, List.all_eq_true, Bool.and_eq_true, beq_iff_eq] at h
  obtain ⟨s, hs, hname, hreq⟩ := h
  refine ⟨s, hs, hname, fun r hr => ?_⟩
  obtain ⟨kv, hkv, hk⟩ := hreq r hr
  exact List.mem_map.mpr ⟨kv, hkv, hk⟩

theorem not_wrapped_of_head {s : String} (h : s.data.head? ≠ some '<') :
    ¬ wrappedInThink s := by
  rintro ⟨t, rfl⟩
  exact h rfl

theorem good_make_example (u n : String) (args : List (String × JVal))
    (tools : List ToolSpec) (th : String) (h : callOkB tools n args = true) :
    goodExample (make_example u n args tools th) := by
  constructor
  · intro cs hcs c hc
    simp only [make_example, Option.some.injEq] at hcs
    subst hcs
    simp only [List.mem_singleton] at hc
    subst hc
    exact callResolved_of_callOkB h
  · constructor
    · exact fun _ => ⟨th, rfl⟩
    · exact fun _ => by simp [make_example]

theorem good_make_multi_tool (u : String) (calls : List (String × List (String × JVal)))
    (tools : List ToolSpec) (th : String)
    (h : calls.all (fun c => callOkB tools c.1 c.2) = true) :
    goodExample (make_multi_tool u calls tools th) := by
  constructor
  · intro cs hcs c hc
    simp only [make_multi_tool, Option.some.injEq] at hcs
    subst hcs
    simp only [List.mem_map] at hc
    obtain ⟨pair, hpair, rfl⟩ := hc
    exact callResolved_of_callOkB (List.all_eq_true.mp h pair hpair)
  · constructor
    · exact fun _ => ⟨th, rfl⟩
    · exact fun _ => by simp [make_multi_tool]

theorem good_make_no_tool (u resp : String) (tools : List ToolSpec)
    (h : resp.data.head? ≠ some '<') : goodExample (make_no_tool u resp tools) := by
  constructor
  · intro cs hcs
    simp [make_no_tool] at hcs
  · constructor
    · intro hne
      exact absurd rfl hne
    · intro hw
      exact absurd hw (not_wrapped_of_head h)

/-! Resolution checks for each call shape the generators emit. -/

theorem research_args_ok (q : String) (b : Bool) :
    callOkB research_tools "research"
      (if b = true then [("query", JVal.str q), ("depth", JVal.str "thorough")]
       else [("query", JVal.str q)]) = true := by
  cases b <;> rfl

theorem knowledge_search_args_ok (t : String) :
    callOkB knowledge_tools "search_knowledge" [("query", JVal.str t)] = true := rfl

theorem knowledge_create_args_ok (t c g : String) :
    callOkB knowledge_tools "create_knowledge"
      [("title", JVal.str t), ("content", JVal.str c), ("category", JVal.str g)] = true := rfl

theorem knowledge_facts_args_ok :
    callOkB knowledge_tools "get_user_facts" [] = true := rfl

theorem task_args_ok (row : TaskRow) :
    callOkB tasks_tools "create_task" (task_args row) = true := by
  rcases row with ⟨s, t, d, p⟩
  cases d <;> cases p <;> rfl

theorem get_tasks_args_ok (args : List (String × JVal)) :
    callOkB tasks_tools "get_tasks" args = true := rfl

theorem get_calendar_args_ok (args : List (String × JVal)) :
    callOkB calendar_tools "get_calendar_events" args = true := rfl

theorem create_calendar_args_ok (t a b : String) :
    callOkB calendar_tools "create_calendar_event"
      [("title", JVal.str t), ("start_at", JVal.str a), ("end_at", JVal.str b)] = true := rfl

theorem get_emails_args_ok (args : List (String × JVal)) :
    callOkB email_tools "get_emails" args = true := rfl

theorem search_emails_args_ok (q : String) :
    callOkB email_tools "search_emails" [("query", JVal.str q)] = true := rfl

theorem send_email_args_ok (a b c : String) :
    callOkB email_tools "send_email"
      [("to", JVal.str a), ("subject", JVal.str b), ("body", JVal.str c)] = true := rfl

theorem music_play_args_ok (q t : String) (b : Bool) :
    callOkB music_tools "play_music" (music_args q t b) = true := by
  cases hb : b <;> simp only [music_args, hb] <;> rfl

theorem music_simple_args_ok (n : String) (hn : n ∈ ["pause_music", "skip_track",
    "previous_track", "get_currently_playing"]) :
    callOkB music_tools n [] = true := by
  fin_cases hn <;> rfl

theorem set_volume_args_ok (v : Int) :
    callOkB music_tools "set_volume" [("volume_percent", JVal.int v)] = true := rfl

theorem execute_python_args_ok (c : String) :
    callOkB code_tools "execute_python" [("code", JVal.str c)] = true := rfl

theorem execute_javascript_args_ok (c : String) :
    callOkB code_tools "execute_javascript" [("code", JVal.str c)] = true := rfl

theorem create_reminder_args_ok (m : String) (t : Int) :
    callOkB reminders_tools "create_reminder"
      [("message", JVal.str m), ("delay_minutes", JVal.int t)] = true := rfl

theorem list_reminders_args_ok : callOkB reminders_tools "list_reminders" [] = true := rfl

theorem write_file_args_ok (f c : String) :
    callOkB files_tools "write_file"
      [("filename", JVal.str f), ("content", JVal.str c)] = true := rfl

theorem read_file_args_ok (f : String) :
    callOkB files_tools "read_file" [("filename", JVal.str f)] = true := rfl

theorem list_files_args_ok : callOkB files_tools "list_files" [] = true := rfl

theorem delete_file_args_ok (f : String) :
    callOkB files_tools "delete_file" [("filename", JVal.str f)] = true := rfl

theorem generate_image_args_ok (p : String) :
    callOkB images_tools "generate_image" [("prompt", JVal.str p)] = true := rfl

theorem search_youtube_args_ok (q : String) :
    callOkB youtube_tools "search_youtube" [("query", JVal.str q)] = true := rfl

theorem system_simple_args_ok (n : String) (hn : n ∈ ["system_cpu_usage", "system_memory",
    "system_disk", "system_uptime", "system_load"]) :
    callOkB system_tools n [] = true := by
  fin_cases hn <;> rfl

theorem docker_containers_args_ok (args : List (String × JVal)) :
    callOkB system_tools "docker_containers" args = true := rfl

theorem docker_logs_args_ok (c : String) :
    callOkB system_tools "docker_logs" [("container_id", JVal.str c)] = true := rfl

theorem docker_stats_args_ok (c : String) :
    callOkB system_tools "docker_stats" [("container_id", JVal.str c)] = true := rfl

theorem navigate_args_ok (u : String) :
    callOkB browser_tools "navigate" [("url", JVal.str u)] = true := rfl

theorem screenshot_args_ok (args : List (String × JVal)) :
    callOkB browser_tools "screenshot" args = true := rfl

theorem click_args_ok (s : String) :
    callOkB browser_tools "click" [("selector", JVal.str s)] = true := rfl

theorem fill_args_ok (s t : String) :
    callOkB browser_tools "fill"
      [("selector", JVal.str s), ("text", JVal.str t)] = true := rfl

theorem search_documents_args_ok (q : String) :
    callOkB documents_tools "search_documents" [("query", JVal.str q)] = true := rfl

theorem get_documents_args_ok : callOkB documents_tools "get_documents" [] = true := rfl

theorem analyze_mood_args_ok (m : String) :
    callOkB mood_tools "analyze_mood" [("message", JVal.str m)] = true := rfl

theorem get_mood_history_args_ok : callOkB mood_tools "get_mood_history" [] = true := rfl

theorem generate_background_args_ok (p s : String) :
    callOkB background_tools "generate_background"
      [("prompt", JVal.str p), ("style", JVal.str s)] = true := rfl

theorem get_backgrounds_args_ok : callOkB background_tools "get_backgrounds" [] = true := rfl

theorem create_project_args_ok (n t d : String) :
    callOkB projects_tools "create_project"
      [("name", JVal.str n), ("type", JVal.str t), ("description", JVal.str d)] = true := rfl

theorem get_projects_args_ok : callOkB projects_tools "get_projects" [] = true := rfl

theorem multi_rows_calls_ok :
    multi_rows.all (fun r => r.calls.all (fun c => callOkB r.tools c.1 c.2)) = true := by
  decide

theorem no_tool_responses_head_ok :
    no_tool_pairs.all (fun p => !(p.2.data.head? == some '<')) = true := by
  decide

/-! Per-segment and per-generator well-formedness. -/

theorem good_researchSeg (o : Oracle) (u : String) (args : List (String × JVal))
    (th : String) (h : callOkB research_tools "research" args = true) :
    ∀ ex ∈ researchSeg o u args th, goodExample ex := by
  intro ex hex
  simp only [researchSeg, List.mem_cons, List.mem_map, List.mem_filter] at hex
  rcases hex with rfl | ⟨var, -, rfl⟩
  · exact good_make_example _ _ _ _ _ h
  · exact good_make_example _ _ _ _ _ h

theorem good_gen_research (o : Oracle) : ∀ ex ∈ gen_research o, goodExample ex := by
  intro ex hex
  simp only [gen_research, List.mem_flatMap] at hex
  obtain ⟨topic, -, pattern, -, hex⟩ := hex
  exact good_researchSeg o _ _ _ (research_args_ok _ _) ex hex

theorem good_knowledgeSearchSeg (o : Oracle) (u term th : String) :
    ∀ ex ∈ knowledgeSearchSeg o u term th, goodExample ex := by
  intro ex hex
  simp only [knowledgeSearchSeg, List.mem_cons, List.mem_map] at hex
  rcases hex with rfl | ⟨var, -, rfl⟩
  · exact good_make_example _ _ _ _ _ (knowledge_search_args_ok term)
  · exact good_make_example _ _ _ _ _ (knowledge_search_args_ok term)

theorem good_gen_knowledge (o : Oracle) : ∀ ex ∈ gen_knowledge o, goodExample ex := by
  intro ex hex
  simp only [gen_knowledge, List.mem_append, List.mem_flatMap, List.mem_map] at hex
  rcases hex with (⟨term, -, pattern, -, hex⟩ | ⟨kc, -, content, -, rfl⟩) | ⟨q, -, rfl⟩
  · exact good_knowledgeSearchSeg o _ _ _ ex hex
  · exact good_make_example _ _ _ _ _ (knowledge_create_args_ok _ _ _)
  · exact good_make_example _ _ _ _ _ knowledge_facts_args_ok

theorem good_tasksCreateSeg (o : Oracle) (u : String) (args : List (String × JVal))
    (th : String) (h : callOkB tasks_tools "create_task" args = true) :
    ∀ ex ∈ tasksCreateSeg o u args th, goodExample ex := by
  intro ex hex
  simp only [tasksCreateSeg, List.mem_cons, List.mem_map] at hex
  rcases hex with rfl | ⟨var, -, rfl⟩
  · exact good_make_example _ _ _ _ _ h
  · exact good_make_example _ _ _ _ _ h

theorem good_tasksGetSeg (o : Oracle) (u : String) (args : List (String × JVal)) :
    ∀ ex ∈ tasksGetSeg o u args, goodExample ex := by
  intro ex hex
  simp only [tasksGetSeg, List.mem_cons, List.mem_map] at hex
  rcases hex with rfl | ⟨var, -, rfl⟩
  · exact good_make_example _ _ _ _ _ (get_tasks_args_ok args)
  · exact good_make_example _ _ _ _ _ (get_tasks_args_ok args)

theorem good_gen_tasks (o : Oracle) : ∀ ex ∈ gen_tasks o, goodExample ex := by
  intro ex hex
  simp only [gen_tasks, List.mem_append, List.mem_flatMap] at hex
  rcases hex with ⟨row, -, pattern, -, hex⟩ | ⟨pa, -, hex⟩
  · exact good_tasksCreateSeg o _ _ _ (task_args_ok row) ex hex
  · exact good_tasksGetSeg o _ _ ex hex

theorem good_calendarGetSeg (o : Oracle) (u : String) (args : List (String × JVal)) :
    ∀ ex ∈ calendarGetSeg o u args, goodExample ex := by
  intro ex hex
  simp only [calendarGetSeg, List.mem_cons, List.mem_map] at hex
  rcases hex with rfl | ⟨var, -, rfl⟩
  · exact good_make_example _ _ _ _ _ (get_calendar_args_ok args)
  · exact good_make_example _ _ _ _ _ (get_calendar_args_ok args)

theorem good_gen_calendar (o : Oracle) : ∀ ex ∈ gen_calendar o, goodExample ex := by
  intro ex hex
  simp only [gen_calendar, List.mem_append, List.mem_flatMap, List.mem_map] at hex
  rcases hex with ⟨pa, -, hex⟩ | ⟨event, -, pattern, -, rfl⟩
  · exact good_calendarGetSeg o _ _ ex hex
  · exact good_make_example _ _ _ _ _ (create_calendar_args_ok _ _ _)

theorem good_emailGetSeg (o : Oracle) (u : String) (args : List (String × JVal)) :
    ∀ ex ∈ emailGetSeg o u args, goodExample ex := by
  intro ex hex
  simp only [emailGetSeg, List.mem_cons, List.mem_map] at hex
  rcases hex with rfl | ⟨var, -, rfl⟩
  · exact good_make_example _ _ _ _ _ (get_emails_args_ok args)
  · exact good_make_example _ _ _ _ _ (get_emails_args_ok args)

theorem good_gen_email (o : Oracle) : ∀ ex ∈ gen_email o, goodExample ex := by
  intro ex hex
  simp only [gen_email, List.mem_append, List.mem_flatMap, List.mem_map] at hex
  rcases hex with (⟨pa, -, hex⟩ | ⟨term, -, pattern, -, rfl⟩) | ⟨s, -, rfl⟩
  · exact good_emailGetSeg o _ _ ex hex
  · exact good_make_example _ _ _ _ _ (search_emails_args_ok _)
  · exact good_make_example _ _ _ _ _ (send_email_args_ok _ _ _)

theorem good_musicPlaySeg (o : Oracle) (u : String) (args : List (String × JVal))
    (th : String) (h : callOkB music_tools "play_music" args = true) :
    ∀ ex ∈ musicPlaySeg o u args th, goodExample ex := by
  intro ex hex
  simp only [musicPlaySeg, List.mem_cons, List.mem_map] at hex
  rcases hex with rfl | ⟨var, -, rfl⟩
  · exact good_make_example _ _ _ _ _ h
  · exact good_make_example _ _ _ _ _ h

theorem good_gen_music (o : Oracle) : ∀ ex ∈ gen_music o, goodExample ex := by
  intro ex hex
  simp only [gen_music, List.mem_append, List.mem_flatMap, List.mem_map] at hex
  rcases hex with ((((⟨it, -, pattern, -, hex⟩ | ⟨m, -, rfl⟩) | ⟨m, -, rfl⟩) | ⟨m, -, rfl⟩)
    | ⟨m, -, rfl⟩) | ⟨v, -, rfl⟩
  · exact good_musicPlaySeg o _ _ _ (music_play_args_ok _ _ _) ex hex
  · exact good_make_example _ _ _ _ _ (music_simple_args_ok _ (by simp))
  · exact good_make_example _ _ _ _ _ (music_simple_args_ok _ (by simp))
  · exact good_make_example _ _ _ _ _ (music_simple_args_ok _ (by simp))
  · exact good_make_example _ _ _ _ _ (music_simple_args_ok _ (by simp))
  · exact good_make_example _ _ _ _ _ (set_volume_args_ok _)

theorem good_gen_code : ∀ ex ∈ gen_code, goodExample ex := by
  intro ex hex
  simp only [gen_code, List.mem_append, List.mem_flatMap, List.mem_map] at hex
  rcases hex with ⟨pe, -, pattern, -, rfl⟩ | ⟨je, -, pattern, -, rfl⟩
  · exact good_make_example _ _ _ _ _ (execute_python_args_ok _)
  · exact good_make_example _ _ _ _ _ (execute_javascript_args_ok _)

theorem good_gen_reminders : ∀ ex ∈ gen_reminders, goodExample ex := by
  intro ex hex
  simp only [gen_reminders, List.mem_append, List.mem_flatMap, List.mem_map] at hex
  rcases hex with ⟨r, -, pattern, -, rfl⟩ | ⟨m, -, rfl⟩
  · exact good_make_example _ _ _ _ _ (create_reminder_args_ok _ _)
  · exact good_make_example _ _ _ _ _ list_reminders_args_ok

theorem good_gen_files : ∀ ex ∈ gen_files, goodExample ex := by
  intro ex hex
  simp only [gen_files, List.mem_append, List.mem_flatMap, List.mem_map] at hex
  rcases hex with ((⟨w, -, pattern, -, rfl⟩ | ⟨f, -, pattern, -, rfl⟩) | ⟨m, -, rfl⟩)
    | ⟨f, -, rfl⟩
  · exact good_make_example _ _ _ _ _ (write_file_args_ok _ _)
  · exact good_make_example _ _ _ _ _ (read_file_args_ok _)
  · exact good_make_example _ _ _ _ _ list_files_args_ok
  · exact good_make_example _ _ _ _ _ (delete_file_args_ok _)

theorem good_gen_images : ∀ ex ∈ gen_images, goodExample ex := by
  intro ex hex
  simp only [gen_images, List.mem_flatMap, List.mem_map] at hex
  obtain ⟨p, -, pattern, -, rfl⟩ := hex
  exact good_make_example _ _ _ _ _ (generate_image_args_ok _)

theorem good_gen_youtube : ∀ ex ∈ gen_youtube, goodExample ex := by
  intro ex hex
  simp only [gen_youtube, List.mem_flatMap, List.mem_map] at hex
  obtain ⟨s, -, pattern, -, rfl⟩ := hex
  exact good_make_example _ _ _ _ _ (search_youtube_args_ok _)

theorem good_gen_system : ∀ ex ∈ gen_system, goodExample ex := by
  intro ex hex
  simp only [gen_system, List.mem_append, List.mem_flatMap, List.mem_map] at hex
  rcases hex with ((((((⟨m, -, rfl⟩ | ⟨m, -, rfl⟩) | ⟨m, -, rfl⟩) | ⟨m, -, rfl⟩)
    | ⟨m, -, rfl⟩) | ⟨m, -, rfl⟩) | ⟨c, -, pattern, -, rfl⟩) | ⟨c, -, rfl⟩
  · exact good_make_example _ _ _ _ _ (system_simple_args_ok _ (by simp))
  · exact good_make_example _ _ _ _ _ (system_simple_args_ok _ (by simp))
  · exact good_make_example _ _ _ _ _ (system_simple_args_ok _ (by simp))
  · exact good_make_example _ _ _ _ _ (system_simple_args_ok _ (by simp))
  · exact good_make_example _ _ _ _ _ (system_simple_args_ok _ (by simp))
  · exact good_make_example _ _ _ _ _ (docker_containers_args_ok _)
  · exact good_make_example _ _ _ _ _ (docker_logs_args_ok _)
  · exact good_make_example _ _ _ _ _ (docker_stats_args_ok _)

theorem good_gen_browser : ∀ ex ∈ gen_browser, goodExample ex := by
  intro ex hex
  simp only [gen_browser, List.mem_append, List.mem_flatMap, List.mem_map,
    List.mem_cons, List.not_mem_nil, or_false] at hex
  rcases hex with ((⟨site, -, pattern, -, rfl⟩ | ⟨m, -, rfl | rfl⟩) | ⟨c, -, rfl⟩)
    | ⟨f, -, rfl⟩
  · exact good_make_example _ _ _ _ _ (navigate_args_ok _)
  · exact good_make_example _ _ _ _ _ (screenshot_args_ok _)
  · exact good_make_example _ _ _ _ _ (screenshot_args_ok _)
  · exact good_make_example _ _ _ _ _ (click_args_ok _)
  · exact good_make_example _ _ _ _ _ (fill_args_ok _ _)

theorem good_gen_documents : ∀ ex ∈ gen_documents, goodExample ex := by
  intro ex hex
  simp only [gen_documents, List.mem_append, List.mem_flatMap, List.mem_map] at hex
  rcases hex with ⟨term, -, pattern, -, rfl⟩ | ⟨m, -, rfl⟩
  · exact good_make_example _ _ _ _ _ (search_documents_args_ok _)
  · exact good_make_example _ _ _ _ _ get_documents_args_ok

theorem good_gen_mood : ∀ ex ∈ gen_mood, goodExample ex := by
  intro ex hex
  simp only [gen_mood, List.mem_append, List.mem_flatMap, List.mem_map] at hex
  rcases hex with ⟨t, -, pattern, -, rfl⟩ | ⟨m, -, rfl⟩
  · exact good_make_example _ _ _ _ _ (analyze_mood_args_ok _)
  · exact good_make_example _ _ _ _ _ get_mood_history_args_ok

theorem good_gen_background : ∀ ex ∈ gen_background, goodExample ex := by
  intro ex hex
  simp only [gen_background, List.mem_append, List.mem_flatMap, List.mem_map] at hex
  rcases hex with ⟨row, -, pattern, -, rfl⟩ | ⟨m, -, rfl⟩
  · exact good_make_example _ _ _ _ _ (generate_background_args_ok _ _)
  · exact good_make_example _ _ _ _ _ get_backgrounds_args_ok

theorem good_gen_projects : ∀ ex ∈ gen_projects, goodExample ex := by
  intro ex hex
  simp only [gen_projects, List.mem_append, List.mem_flatMap, List.mem_map] at hex
  rcases hex with ⟨row, -, pattern, -, rfl⟩ | ⟨m, -, rfl⟩
  · exact good_make_example _ _ _ _ _ (create_project_args_ok _ _ _)
  · exact good_make_example _ _ _ _ _ get_projects_args_ok

theorem good_negativeSeg (o : Oracle) (u resp : String) (tools : List ToolSpec)
    (h : resp.data.head? ≠ some '<') : ∀ ex ∈ negativeSeg o u resp tools, goodExample ex := by
  intro ex hex
  simp only [negativeSeg, List.mem_cons, List.mem_map] at hex
  rcases hex with rfl | ⟨var, -, rfl⟩
  · exact good_make_no_tool _ _ _ h
  · exact good_make_no_tool _ _ _ h

theorem good_gen_negative (o : Oracle) : ∀ ex ∈ gen_negative o, goodExample ex := by
  intro ex hex
  simp only [gen_negative, List.mem_flatMap] at hex
  obtain ⟨p, hp, hex⟩ := hex
  have hhead := List.all_eq_true.mp no_tool_responses_head_ok p hp
  simp only [Bool.not_eq_true', beq_eq_false_iff_ne, ne_eq] at hhead
  exact good_negativeSeg o _ _ _ hhead ex hex

theorem good_multiSeg (o : Oracle) (r : MultiRow)
    (h : r.calls.all (fun c => callOkB r.tools c.1 c.2) = true) :
    ∀ ex ∈ multiSeg o r, goodExample ex := by
  intro ex hex
  simp only [multiSeg, List.mem_cons, List.mem_map] at hex
  rcases hex with rfl | ⟨var, -, rfl⟩
  · exact good_make_multi_tool _ _ _ _ h
  · exact good_make_multi_tool _ _ _ _ h

theorem good_gen_multi_tool (o : Oracle) : ∀ ex ∈ gen_multi_tool o, goodExample ex := by
  intro ex hex
  simp only [gen_multi_tool, List.mem_flatMap] at hex
  obtain ⟨r, hr, hex⟩ := hex
  exact good_multiSeg o r (List.all_eq_true.mp multi_rows_calls_ok r hr) ex hex

theorem good_all_examples (o : Oracle) : ∀ ex ∈ all_examples o, goodExample ex := by
  intro ex hex
  simp only [all_examples, List.mem_flatten, List.mem_cons, List.not_mem_nil, or_false,
    exists_eq_or_imp, exists_eq_left] at hex
  rcases hex with h | h | h | h | h | h | h | h | h | h | h | h | h | h | h | h | h | h | h
  · exact good_gen_research o ex h
  · exact good_gen_knowledge o ex h
  · exact good_gen_tasks o ex h
  · exact good_gen_calendar o ex h
  · exact good_gen_email o ex h
  · exact good_gen_music o ex h
  · exact good_gen_code ex h
  · exact good_gen_reminders ex h
  · exact good_gen_files ex h
  · exact good_gen_images ex h
  · exact good_gen_youtube ex h
  · exact good_gen_system ex h
  · exact good_gen_browser ex h
  · exact good_gen_documents ex h
  · exact good_gen_mood ex h
  · exact good_gen_background ex h
  · exact good_gen_projects ex h
  · exact good_gen_negative o ex h
  · exact good_gen_multi_tool o ex h

/-! Structure of `add_typos`. -/

theorem mem_typoCopies {o : Oracle} {rate : ℚ} {i : Nat} {ex c : Example}
    (hc : c ∈ typoCopies o rate i ex) :
    c = { ex with user := perturbMsg o i ex.user } ∧ perturbMsg o i ex.user ≠ ex.user := by
  unfold typoCopies at hc
  dsimp only at hc
  split at hc
  · split at hc
    · simp only [List.mem_singleton] at hc
      exact ⟨hc, by assumption⟩
    · simp at hc
  · simp at hc

theorem typoCopies_length_le (o : Oracle) (rate : ℚ) (i : Nat) (ex : Example) :
    (typoCopies o rate i ex).length ≤ 1 := by
  unfold typoCopies
  dsimp only
  split
  · split <;> simp
  · simp

theorem typoCopies_pos {o : Oracle} {rate : ℚ} {i : Nat} {ex : Example}
    (hg : o.typoGate i < rate) (hne : perturbMsg o i ex.user ≠ ex.user) :
    typoCopies o rate i ex = [{ ex with user := perturbMsg o i ex.user }] := by
  unfold typoCopies
  rw [if_pos hg, if_pos hne]

theorem typoCopies_gate_neg {o : Oracle} {rate : ℚ} {i : Nat} {ex : Example}
    (hg : ¬ o.typoGate i < rate) : typoCopies o rate i ex = [] := by
  unfold typoCopies
  rw [if_neg hg]

theorem mem_addTyposGo {o : Oracle} {rate : ℚ} :
    ∀ {i : Nat} {exs : List Example} {ex' : Example}, ex' ∈ addTyposGo o rate i exs →
      ∃ src ∈ exs, ex'.assistant = src.assistant ∧ ex'.tools = src.tools := by
  intro i exs
  induction exs generalizing i with
  | nil =>
    intro ex' h
    simp [addTyposGo] at h
  | cons ex rest ih =>
    intro ex' h
    simp only [addTyposGo, List.mem_cons, List.mem_append] at h
    rcases h with rfl | h | h
    · exact ⟨ex', List.mem_cons_self _ _, rfl, rfl⟩
    · obtain ⟨hc, -⟩ := mem_typoCopies h
      subst hc
      exact ⟨ex, List.mem_cons_self _ _, rfl, rfl⟩
    · obtain ⟨src, hsrc, h1, h2⟩ := ih h
      exact ⟨src, List.mem_cons_of_mem _ hsrc, h1, h2⟩

theorem sublist_addTyposGo (o : Oracle) (rate : ℚ) :
    ∀ (i : Nat) (exs : List Example), exs.Sublist (addTyposGo o rate i exs) := by
  intro i exs
  induction exs generalizing i with
  | nil => simp [addTyposGo]
  | cons ex rest ih =>
    exact List.Sublist.cons₂ ex ((ih (i + 1)).trans (List.sublist_append_right _ _))

theorem addTyposGo_interleave (o : Oracle) (rate : ℚ) :
    ∀ (i : Nat) (exs : List Example), ∃ cs : List (List Example),
      addTyposGo o rate i exs = (List.zipWith (fun e c => e :: c) exs cs).flatten ∧
      List.Forall₂ (fun (e : Example) (c : List Example) =>
        c.length ≤ 1 ∧ ∀ x ∈ c, x.tools = e.tools ∧ x.developer = e.developer ∧
          x.assistant = e.assistant ∧ x.user ≠ e.user) exs cs := by
  intro i exs
  induction exs generalizing i with
  | nil => exact ⟨[], rfl, List.Forall₂.nil⟩
  | cons ex rest ih =>
    obtain ⟨cs, h1, h2⟩ := ih (i + 1)
    refine ⟨typoCopies o rate i ex :: cs, ?_, ?_⟩
    · simp [addTyposGo, h1]
    · refine List.Forall₂.cons ⟨typoCopies_length_le o rate i ex, ?_⟩ h2
      intro x hx
      obtain ⟨hc, hne⟩ := mem_typoCopies hx
      subst hc
      exact ⟨rfl, rfl, rfl, hne⟩

/-- `goodExample` only looks at the assistant message and the tools list. -/
theorem goodExample_congr {a b : Example} (ha : goodExample a)
    (h1 : b.assistant = a.assistant) (h2 : b.tools = a.tools) : goodExample b := by
  obtain ⟨hw, ht⟩ := ha
  constructor
  · intro cs hcs c hc
    rw [h1] at hcs
    rw [h2]
    exact hw cs hcs c hc
  · unfold thinkIffCalls
    rw [h1]
    exact ht

theorem good_corpus (o : Oracle) : ∀ ex ∈ corpusBeforeShuffle o, goodExample ex := by
  intro ex hex
  unfold corpusBeforeShuffle add_typos at hex
  obtain ⟨src, hsrc, h1, h2⟩ := mem_addTyposGo hex
  exact goodExample_congr (good_all_examples o src hsrc) h1 h2

/-! Concrete oracles and records for witnesses and counterexamples. -/

/-- An oracle whose samples are all empty and whose typo gate never fires. -/
def oracle0 : Oracle :=
  { researchPats := fun _ => []
    researchDepthThorough := fun _ => false
    knowledgePats := fun _ => []
    tasksPats := fun _ => []
    musicPats := fun _ => []
    musicRand := fun _ => 0
    negTools := fun _ => []
    varyPs := fun _ => []
    varySs := fun _ _ => []
    typoGate := fun _ => 2
    typoCoin := fun _ _ => 2
    typoPick := fun _ _ => 0 }

/-- An oracle whose typo gate fires for the first example only, with every
per-word coin below one half. -/
def typo_oracle : Oracle :=
  { oracle0 with
    typoGate := fun i => if i = 0 then 0 else 1
    typoCoin := fun _ _ => 0
    typoPick := fun _ _ => 0 }

/-- An oracle whose typo gate draws 0.12 — between the default rate 0.1 and
the rate 0.15 passed by `main`. -/
def c8_oracle : Oracle :=
  { typo_oracle with typoGate := fun _ => 12/100 }

def e_check : Example := make_no_tool "check this" "ok" []

def e_check_copy : Example := { e_check with user := "chekc this" }

def e_hello : Example := make_no_tool "hello" "hi" []

/-- The first record of the knowledge-save loop, reachable for any oracle. -/
def witness_example : Example :=
  make_example "Save this: Python list comprehensions are faster" "create_knowledge"
    [("title", JVal.str "Saved Note"),
     ("content", JVal.str "Python list comprehensions are faster"),
     ("category", JVal.str "notes")]
    knowledge_tools "User wants to save knowledge."

/-- The base multi-tool record for "Check email and calendar". -/
def check_email_cal_example : Example :=
  make_multi_tool "Check email and calendar"
    [("get_emails", []), ("get_calendar_events", [])]
    [spec_get_emails, spec_get_calendar_events] "Email and calendar."

theorem typoWord_of_coin_lt {o : Oracle} {i j : Nat}
    (h : o.typoCoin i j < (1/2 : ℚ)) (w : String) :
    typoWord o i j w = (match lookupTypo w with
      | some l => l.getD (o.typoPick i j % l.length) w
      | none => w) := by
  unfold typoWord
  cases lookupTypo w with
  | none => rfl
  | some l => exact if_pos h

theorem perturbMsg_of_coin_lt {o : Oracle} {i : Nat}
    (h : ∀ j, o.typoCoin i j < (1/2 : ℚ)) (msg : String) :
    perturbMsg o i msg = pyJoinSpace ((pyWords msg).enum.map (fun jw =>
      match lookupTypo jw.2 with
      | some l => l.getD (o.typoPick i jw.1 % l.length) jw.2
      | none => jw.2)) := by
  unfold perturbMsg
  congr 1
  exact List.map_congr_left (fun jw _ => typoWord_of_coin_lt (h jw.1) jw.2)

theorem perturb_e_check : perturbMsg typo_oracle 0 "check this" = "chekc this" := by
  rw [perturbMsg_of_coin_lt (fun j => by norm_num [typo_oracle, oracle0])]
  decide

theorem perturb_e_check_c8 : perturbMsg c8_oracle 0 "check this" = "chekc this" := by
  rw [perturbMsg_of_coin_lt (fun j => by norm_num [c8_oracle, typo_oracle, oracle0])]
  decide

theorem addTyposGo_of_gate_ge {o : Oracle} {rate : ℚ}
    (hg : ∀ i, ¬ o.typoGate i < rate) :
    ∀ (i : Nat) (exs : List Example), addTyposGo o rate i exs = exs := by
  intro i exs
  induction exs generalizing i with
  | nil => rfl
  | cons ex rest ih =>
    simp [addTyposGo, typoCopies_gate_neg (hg i), ih (i + 1)]

theorem corpus_oracle0_eq : corpusBeforeShuffle oracle0 = all_examples oracle0 := by
  unfold corpusBeforeShuffle add_typos
  exact addTyposGo_of_gate_ge (fun i => by norm_num [oracle0]) 0 _

theorem witness_example_mem : witness_example ∈ corpusBeforeShuffle oracle0 := by
  rw [corpus_oracle0_eq]
  refine List.mem_flatten.mpr ⟨gen_knowledge oracle0, ?_, ?_⟩
  · exact List.mem_cons_of_mem _ (List.mem_cons_self _ _)
  · decide

theorem check_email_cal_mem (o : Oracle) : check_email_cal_example ∈ gen_multi_tool o := by
  refine List.mem_flatMap.mpr ⟨multi_rows.get ⟨1, by norm_num [multi_rows]⟩, ?_, ?_⟩
  · exact List.get_mem _ _ _
  · exact List.mem_cons_self _ _

theorem typoCopies_e_check {rate : ℚ} (hg : (0 : ℚ) < rate) :
    typoCopies typo_oracle rate 0 e_check = [e_check_copy] := by
  have hp : perturbMsg typo_oracle 0 e_check.user = "chekc this" := perturb_e_check
  rw [typoCopies_pos (show typo_oracle.typoGate 0 < rate by
      simpa [typo_oracle, oracle0] using hg) (by rw [hp]; decide), hp]
  rfl

theorem typoCopies_e_check_c8 :
    typoCopies c8_oracle (15/100) 0 e_check = [e_check_copy] := by
  have hp : perturbMsg c8_oracle 0 e_check.user = "chekc this" := perturb_e_check_c8
  rw [typoCopies_pos (show c8_oracle.typoGate 0 < 15/100 by
      norm_num [c8_oracle, typo_oracle, oracle0]) (by rw [hp]; decide), hp]
  rfl

theorem take_two_vary (o : Oracle) (u : String) :
    ∃ t, (varyO o u).take 2 = u :: t := by
  obtain ⟨t, ht⟩ := vary_message_eq_cons u (o.varyPs u) (o.varySs u)
  exact ⟨t.take 1, by rw [varyO, ht, List.take_succ_cons]⟩

theorem multiSeg_cons (o : Oracle) (r : MultiRow) :
    ∃ rest, multiSeg o r =
      make_multi_tool r.user_msg r.calls r.tools r.thinking ::
        make_multi_tool r.user_msg r.calls r.tools r.thinking :: rest := by
  obtain ⟨t, ht⟩ := take_two_vary o r.user_msg
  exact ⟨t.map _, by unfold multiSeg; rw [ht, List.map_cons]⟩

theorem multi_rows_tools_covered :
    multi_rows.all (fun r => r.tools.all (fun s => r.calls.any (fun c => c.1 == s.name)))
      = true := by decide

theorem multiSeg_shape (o : Oracle) (r : MultiRow) :
    ∀ ex ∈ multiSeg o r, ex.assistant.tool_calls =
      some (r.calls.map (fun c => { name := c.1, arguments := c.2 })) ∧
      ex.tools = r.tools := by
  intro ex hex
  simp only [multiSeg, List.mem_cons, List.mem_map] at hex
  rcases hex with rfl | ⟨var, -, rfl⟩ <;> exact ⟨rfl, rfl⟩

/-! The claims. -/

/-- C1: for every example of the generated corpus (any oracle, any shuffle)
whose assistant message carries tool calls, each call's tool name occurs in
that example's `tools` list and every `required` parameter of the matching
spec's schema is a key of the call's arguments. -/
theorem c1_corpus_tool_calls_wellformed (o : Oracle) (out : List Example)
    (hperm : out.Perm (corpusBeforeShuffle o)) :
    ∀ ex ∈ out, ∀ cs, ex.assistant.tool_calls = some cs →
      ∀ c ∈ cs, ∃ s ∈ ex.tools, s.name = c.name ∧
        ∀ r ∈ s.required, r ∈ c.arguments.map Prod.fst := by
  intro ex hex cs hcs c hc
  exact (good_corpus o ex (hperm.mem_iff.mp hex)).1 cs hcs c hc

/-- C1 witness: the invariant instantiated at a concrete oracle and at the
first record of the knowledge-save loop. -/
theorem c1_witness :
    ∃ s ∈ witness_example.tools, s.name = "create_knowledge" ∧
      ∀ r ∈ s.required, r ∈ ([("title", JVal.str "Saved Note"),
        ("content", JVal.str "Python list comprehensions are faster"),
        ("category", JVal.str "notes")] : List (String × JVal)).map Prod.fst :=
  c1_corpus_tool_calls_wellformed oracle0 (corpusBeforeShuffle oracle0)
    (List.Perm.refl _) witness_example witness_example_mem _ rfl
    { name := "create_knowledge",
      arguments := [("title", JVal.str "Saved Note"),
        ("content", JVal.str "Python list comprehensions are faster"),
        ("category", JVal.str "notes")] } (List.mem_cons_self _ _)

/-- C2 counterexample: for the input `" Please "` and a legitimate random
state (3 distinct prefixes, 2 distinct suffixes from the vocabularies), the
returned variation list contains the original input string and contains a
duplicate, contradicting the claim. -/
theorem c2_counterexample :
    (["please ", "", "hey "] : List String).all (fun p => prefixes.contains p) = true ∧
    (["please ", "", "hey "] : List String).Nodup ∧
    ((["", " please"] : List String).all (fun s => suffixes.contains s) = true) ∧
    (["", " please"] : List String).Nodup ∧
    " Please " ∈ vary_message " Please " ["please ", "", "hey "] (fun _ => ["", " please"]) ∧
    ¬ (vary_message " Please " ["please ", "", "hey "] (fun _ => ["", " please"])).Nodup := by
  decide

/-- C2 amended: the variation list has at most 5 elements and always starts
with the original input string (so the original is included, and duplicates
are possible; only the bound of 5 from the claim survives). -/
theorem c2_amended (msg : String) (ps : List String) (ss : String → List String) :
    (vary_message msg ps ss).length ≤ 5 ∧ (vary_message msg ps ss).head? = some msg :=
  ⟨vary_message_length_le msg ps ss, vary_message_head msg ps ss⟩

/-- C3: in the generated corpus (any oracle, any shuffle), the assistant
message has a `tool_calls` field iff its content is wrapped in
`<think>…</think>`. -/
theorem c3_tool_calls_iff_think (o : Oracle) (out : List Example)
    (hperm : out.Perm (corpusBeforeShuffle o)) :
    ∀ ex ∈ out, (ex.assistant.tool_calls ≠ none ↔ wrappedInThink ex.assistant.content) :=
  fun ex hex => (good_corpus o ex (hperm.mem_iff.mp hex)).2

/-- C3 witness: the iff instantiated at a concrete corpus record. -/
theorem c3_witness : wrappedInThink witness_example.assistant.content :=
  (c3_tool_calls_iff_think oracle0 (corpusBeforeShuffle oracle0) (List.Perm.refl _)
    witness_example witness_example_mem).mp (by simp [witness_example, make_example])

/-- C4: an augmented copy produced for an example keeps its tools, developer
message and assistant message (hence tool names, arguments and reasoning
trace) and differs in the user text; no copy is emitted when the perturbed
user text equals the original. -/
theorem c4_typo_copy_label_invariant (o : Oracle) (rate : ℚ) (i : Nat) (ex : Example) :
    (∀ c ∈ typoCopies o rate i ex, c.tools = ex.tools ∧ c.developer = ex.developer ∧
      c.assistant = ex.assistant ∧ c.user ≠ ex.user) ∧
    (perturbMsg o i ex.user = ex.user → typoCopies o rate i ex = []) := by
  constructor
  · intro c hc
    obtain ⟨hc, hne⟩ := mem_typoCopies hc
    subst hc
    exact ⟨rfl, rfl, rfl, hne⟩
  · intro heq
    unfold typoCopies
    dsimp only
    split
    · rw [heq]
      simp
    · rfl

/-- C4 witness: a concrete accepted copy keeps tools and assistant message
and differs in user text. -/
theorem c4_witness :
    e_check_copy ∈ typoCopies typo_oracle (15/100) 0 e_check ∧
    e_check_copy.tools = e_check.tools ∧ e_check_copy.assistant = e_check.assistant ∧
    e_check_copy.user ≠ e_check.user := by
  have hmem : e_check_copy ∈ typoCopies typo_oracle (15/100) 0 e_check := by
    rw [typoCopies_e_check (by norm_num)]
    exact List.mem_singleton_self _
  have h := (c4_typo_copy_label_invariant typo_oracle (15/100) 0 e_check).1 e_check_copy hmem
  exact ⟨hmem, h.1, h.2.2.1, h.2.2.2⟩

/-- C5 counterexample: with two examples where only the first is augmented,
the output is not the input followed by the copies — the copy is interleaved
directly after its source. -/
theorem c5_counterexample :
    ¬ ∃ copies : List Example,
      add_typos typo_oracle [e_check, e_hello] (15/100) = [e_check, e_hello] ++ copies := by
  have heval : add_typos typo_oracle [e_check, e_hello] (15/100) =
      [e_check, e_check_copy, e_hello] := by
    unfold add_typos
    simp [addTyposGo, typoCopies_e_check (show (0:ℚ) < 15/100 by norm_num),
      typoCopies_gate_neg (show ¬ typo_oracle.typoGate 1 < 15/100 by
        norm_num [typo_oracle, oracle0])]
  rintro ⟨copies, hc⟩
  rw [heval] at hc
  have h2 : some e_check_copy = some e_hello := by
    have h3 := congrArg (fun l => l.get? 1) hc
    simpa using h3
  have h4 : e_check_copy = e_hello := by injection h2
  exact absurd h4 (by decide)

/-- C5 amended: the output interleaves: each input example is emitted in
order, immediately followed by its accepted augmented copy (at most one, with
the label fields unchanged), rather than all copies being appended at the
end. -/
theorem c5_amended (o : Oracle) (rate : ℚ) (exs : List Example) :
    ∃ cs : List (List Example),
      add_typos o exs rate = (List.zipWith (fun e c => e :: c) exs cs).flatten ∧
      List.Forall₂ (fun (e : Example) (c : List Example) =>
        c.length ≤ 1 ∧ ∀ x ∈ c, x.tools = e.tools ∧ x.developer = e.developer ∧
          x.assistant = e.assistant ∧ x.user ≠ e.user) exs cs :=
  addTyposGo_interleave o rate 0 exs

/-- C6: every example of `gen_multi_tool` carries exactly the ordered call
sequence of its table row, with `tools` the set of specs referenced (both
inclusions); in particular the "Check email and calendar" example carries
`get_emails` then `get_calendar_events` with both specs in `tools`. -/
theorem c6_multi_tool_calls_and_tools (o : Oracle) :
    (∀ ex ∈ gen_multi_tool o, ∀ cs, ex.assistant.tool_calls = some cs →
      (∀ c ∈ cs, ∃ s ∈ ex.tools, s.name = c.name) ∧
      (∀ s ∈ ex.tools, ∃ c ∈ cs, c.name = s.name)) ∧
    (∃ ex ∈ gen_multi_tool o, ex.user = "Check email and calendar" ∧
      ex.assistant.tool_calls = some
        [{ name := "get_emails", arguments := [] },
         { name := "get_calendar_events", arguments := [] }] ∧
      spec_get_emails ∈ ex.tools ∧ spec_get_calendar_events ∈ ex.tools) := by
  constructor
  · intro ex hex cs hcs
    obtain ⟨r, hr, hexseg⟩ := List.mem_flatMap.mp hex
    obtain ⟨hcalls, htools⟩ := multiSeg_shape o r ex hexseg
    rw [hcalls] at hcs
    injection hcs with hcs
    subst hcs
    constructor
    · intro c hc
      obtain ⟨pair, hpair, rfl⟩ := List.mem_map.mp hc
      have hok := List.all_eq_true.mp (List.all_eq_true.mp multi_rows_calls_ok r hr) pair hpair
      obtain ⟨s, hs, hname, -⟩ := callResolved_of_callOkB hok
      exact ⟨s, by rw [htools]; exact hs, hname⟩
    · intro s hs
      rw [htools] at hs
      have hcov := List.all_eq_true.mp
        (List.all_eq_true.mp multi_rows_tools_covered r hr) s hs
      simp only [List.any_eq_true, beq_iff_eq] at hcov
      obtain ⟨pair, hpair, hname⟩ := hcov
      exact ⟨{ name := pair.1, arguments := pair.2 },
        List.mem_map.mpr ⟨pair, hpair, rfl⟩, hname⟩
  · exact ⟨check_email_cal_example, check_email_cal_mem o, rfl, rfl,
      List.mem_cons_self _ _, List.mem_cons_of_mem _ (List.mem_cons_self _ _)⟩

/-- C6 witness: both referenced specs resolve in the tools of the concrete
"Check email and calendar" example. -/
theorem c6_witness :
    (∃ s ∈ check_email_cal_example.tools, s.name = "get_emails") ∧
    (∃ s ∈ check_email_cal_example.tools, s.name = "get_calendar_events") := by
  have h := (c6_multi_tool_calls_and_tools oracle0).1 check_email_cal_example
    (check_email_cal_mem oracle0) _ rfl
  constructor
  · exact h.1 { name := "get_emails", arguments := [] } (List.mem_cons_self _ _)
  · exact h.1 { name := "get_calendar_events", arguments := [] }
      (List.mem_cons_of_mem _ (List.mem_cons_self _ _))

theorem validateGo_spec (parses : String → Bool) :
    ∀ (lines : List String) (s i : Nat), validateGo parses s lines = some i →
      s ≤ i ∧ i - s < lines.length ∧
      (∃ l, lines.get? (i - s) = some l ∧ parses l = false) ∧
      (∀ j, j < i - s → ∃ l, lines.get? j = some l ∧ parses l = true) := by
  intro lines
  induction lines with
  | nil =>
    intro s i h
    simp [validateGo] at h
  | cons l ls ih =>
    intro s i h
    unfold validateGo at h
    by_cases hp : parses l
    · rw [if_pos hp] at h
      obtain ⟨h1, h2, ⟨l', hl', hl'f⟩, h4⟩ := ih (s + 1) i h
      have hsub : i - s = (i - (s + 1)) + 1 := by omega
      refine ⟨by omega, ?_, ?_, ?_⟩
      · simp only [List.length_cons]
        omega
      · rw [hsub]
        exact ⟨l', by simpa using hl', hl'f⟩
      · intro j hj
        cases j with
        | zero => exact ⟨l, rfl, hp⟩
        | succ k =>
          obtain ⟨l', h5, h6⟩ := h4 k (by omega)
          exact ⟨l', by simpa using h5, h6⟩
    · rw [if_neg hp] at h
      injection h with h
      subst h
      refine ⟨le_refl s, by simp, ⟨l, by simp, by simpa using hp⟩, ?_⟩
      intro j hj
      omega

/-- C7: if validation reports line `i`, then `i` is the 1-based index of the
first written line that fails to parse (all earlier lines parse), the
statistics stage is not reached, and the written file stays on disk. -/
theorem c7_validator_fail_fast (parses : String → Bool) (lines : List String) (i : Nat)
    (h : validateLines parses lines = some i) :
    1 ≤ i ∧ i ≤ lines.length ∧
    (∃ l, lines.get? (i - 1) = some l ∧ parses l = false) ∧
    (∀ j, j < i - 1 → ∃ l, lines.get? j = some l ∧ parses l = true) ∧
    (runValidationStage parses lines).statsComputed = false ∧
    (runValidationStage parses lines).reportedErrorLine = some i ∧
    (runValidationStage parses lines).fileLines = lines := by
  obtain ⟨h1, h2, h3, h4⟩ := validateGo_spec parses lines 1 i h
  have hrun : runValidationStage parses lines = ⟨lines, some i, false⟩ := by
    unfold runValidationStage validateLines
    rw [show validateGo parses 1 lines = some i from h]
  exact ⟨h1, by omega, h3, h4, by rw [hrun], by rw [hrun], by rw [hrun]⟩

def c7_parses : String → Bool := fun s => s == "ok"

/-- C7 witness: a two-line file whose second line fails to parse is reported
as line 2, the statistics flag stays false, and the file is kept. -/
theorem c7_witness :
    (runValidationStage c7_parses ["ok", "bad"]).statsComputed = false ∧
    (runValidationStage c7_parses ["ok", "bad"]).reportedErrorLine = some 2 ∧
    (runValidationStage c7_parses ["ok", "bad"]).fileLines = ["ok", "bad"] := by
  have h := c7_validator_fail_fast c7_parses ["ok", "bad"] 2 (by decide)
  exact ⟨h.2.2.2.2.1, h.2.2.2.2.2.1, h.2.2.2.2.2.2⟩

/-- C8 counterexample: the default value of the augmentation probability
parameter of `add_typos` is not 0.15. -/
theorem c8_counterexample : ¬ add_typos_default_rate = 15/100 := by
  norm_num [add_typos_default_rate]

/-- C8 amended: the default rate of `add_typos` is 0.1, and the pipeline's
`main` passes `rate=0.15` explicitly; the two rates differ observably (a gate
draw of 0.12 augments at 0.15 but not at the default). -/
theorem c8_amended :
    add_typos_default_rate = 1/10 ∧
    (∀ (o : Oracle) (exs : List Example),
      add_typos_default o exs = add_typos o exs (1/10)) ∧
    (∀ o : Oracle, corpusBeforeShuffle o = add_typos o (all_examples o) (15/100)) ∧
    add_typos_default c8_oracle [e_check] ≠ add_typos c8_oracle [e_check] (15/100) := by
  refine ⟨rfl, fun o exs => rfl, fun o => rfl, ?_⟩
  have h1 : add_typos_default c8_oracle [e_check] = [e_check] := by
    unfold add_typos_default add_typos
    exact addTyposGo_of_gate_ge (fun i => by
      norm_num [c8_oracle, typo_oracle, oracle0, add_typos_default_rate]) 0 _
  have h2 : add_typos c8_oracle [e_check] (15/100) = [e_check, e_check_copy] := by
    unfold add_typos
    simp [addTyposGo, typoCopies_e_check_c8]
  rw [h1, h2]
  decide

/-- C9: `vary_message` always returns a list starting with the unmodified
input, so the unguarded `vary_message(msg)[:2]` loops of the knowledge, task
and multi-tool generators emit an exact duplicate of the base example right
after it. -/
theorem c9_vary_head_unguarded_duplicates :
    (∀ (msg : String) (ps : List String) (ss : String → List String),
      (vary_message msg ps ss).head? = some msg) ∧
    (∀ (o : Oracle) (u term th : String),
      ∃ e rest, knowledgeSearchSeg o u term th = e :: e :: rest) ∧
    (∀ (o : Oracle) (u : String) (args : List (String × JVal)) (th : String),
      ∃ e rest, tasksCreateSeg o u args th = e :: e :: rest) ∧
    (∀ o : Oracle, ∃ e rest, gen_multi_tool o = e :: e :: rest) := by
  refine ⟨vary_message_head, ?_, ?_, ?_⟩
  · intro o u term th
    obtain ⟨t, ht⟩ := take_two_vary o u
    exact ⟨_, _, by unfold knowledgeSearchSeg; rw [ht, List.map_cons]⟩
  · intro o u args th
    obtain ⟨t, ht⟩ := take_two_vary o u
    exact ⟨_, _, by unfold tasksCreateSeg; rw [ht, List.map_cons]⟩
  · intro o
    obtain ⟨rest, hseg⟩ := multiSeg_cons o
      ⟨"Play music and show tasks",
       [("play_music", [("query", JVal.str "music"), ("type", JVal.str "playlist")]),
        ("get_tasks", [])],
       [spec_play_music, spec_get_tasks], "Music and tasks."⟩
    refine ⟨make_multi_tool "Play music and show tasks"
      [("play_music", [("query", JVal.str "music"), ("type", JVal.str "playlist")]),
       ("get_tasks", [])]
      [spec_play_music, spec_get_tasks] "Music and tasks.",
      rest ++ (multi_rows.drop 1).flatMap (multiSeg o), ?_⟩
    have hsplit : gen_multi_tool o =
        multiSeg o ⟨"Play music and show tasks",
          [("play_music", [("query", JVal.str "music"), ("type", JVal.str "playlist")]),
           ("get_tasks", [])],
          [spec_play_music, spec_get_tasks], "Music and tasks."⟩
          ++ (multi_rows.drop 1).flatMap (multiSeg o) := rfl
    rw [hsplit, hseg]
    rfl

/-- C10: `add_typos` removes and modifies nothing: the input is a sublist of
the output (every input example appears unchanged, in order) and the output
is at least as long. -/
theorem c10_add_typos_preserves_input (o : Oracle) (rate : ℚ) (exs : List Example) :
    exs.Sublist (add_typos o exs rate) ∧
    exs.length ≤ (add_typos o exs rate).length ∧
    ∀ ex ∈ exs, ex ∈ add_typos o exs rate := by
  have h := sublist_addTyposGo o rate 0 exs
  exact ⟨h, h.length_le, fun ex hex => h.subset hex⟩
